import Mathlib

/-!
# color_lib: deferred-free tracker, escape-string factory, lifecycle

A shallow embedding of `src/color_lib.c` / `src/color_lib.h`.

* The C globals become the fields of `State`; every C function becomes a
  function on `State` (explicit state passing).
* A C string is the `List Char` of its characters before the terminating NUL.
* A nullable pointer is an `Option`; `Ptr` is the address of a live or dead
  heap block.  The outcome of every `malloc` call is an explicit argument of
  the function that performs it (`some p` / `none` for the string buffer,
  `true` / `false` for the `t_gc_node` cell).
* Every `free` of a string buffer, every `printf` call and every write to
  the error stream is appended to `State.trace`, so that both the number of
  frees and the order of effects can be stated.
* `printf` goes through the `stdout` stream, which buffers: `observe` and
  `exit_observed` turn a trace into what leaves the process, and when.
-/

namespace ColorLib

/-! ## Data model -/

/-- Address of a heap block returned by `malloc` (never NULL). -/
abbrev Ptr := Nat

/-- Observable effects, in the order in which the program performs them. -/
inductive Event where
  /-- The call `free(p)` on a string buffer. -/
  | free (p : Ptr)
  /-- One `printf` call: the characters it sends to standard output, that is,
  hands to the `stdout` stream (see `Stream` for when they are written out). -/
  | stdout (text : List Char)
  /-- One `write(STDERR_FILENO, ..)` call: the bytes it sends. -/
  | stderr (text : List Char)
  deriving DecidableEq, Repr

/-- The functions the library registers with `atexit`. -/
inductive ExitFn where
  | gc_clean_all
  | auto_clean
  deriving DecidableEq, Repr

/-- Values of the function pointer `Style.RESET_ALL`. -/
inductive StyleFn where
  | gc_reset
  deriving DecidableEq, Repr

/-- One `char [COLOR_STR_SIZE]` slot of a static table.  `none` stands for a
slot whose content is indeterminate because it was written by `snprintf`
with a NULL argument for `%s`. -/
abbrev Slot := Option (List Char)

/-- The global variables of `color_lib.c`, the heap contents of the string
buffers, the effect trace and the process-level registrations. -/
structure State where
  /-- List `g_list_active`: the `ptr` fields of its nodes, head first. -/
  g_list_active : List Ptr
  /-- List `g_list_trash`: the `ptr` fields of its nodes, head first. -/
  g_list_trash : List Ptr
  g_ansi_esc_char : List Char
  g_cursor_auto_show : Nat
  g_auto_clean : Nat
  Fore : List Slot
  Back : List Slot
  Style : List Slot
  Style_RESET_ALL : Option StyleFn
  Disable : List Slot
  Default : List Slot
  Font : List Slot
  Misc : List Slot
  Cursor : List Slot
  Screen : List Slot
  /-- Contents of the live string buffers. -/
  heap : List (Ptr × List Char)
  /-- Effects performed so far, oldest first. -/
  trace : List Event
  /-- Functions registered with `atexit`, most recently registered first. -/
  atexit_fns : List ExitFn
  /-- Signals whose disposition is `handle_signal`. -/
  sig_handlers : List Int
  /-- Status passed to `_exit`, once the process has been terminated. -/
  exit_status : Option Int
  deriving DecidableEq, Repr

/-! ## Heap primitives -/

/-- The call `free(p)`: the block's content is gone and the call is logged. -/
def free (p : Ptr) (s : State) : State :=
  { s with heap := s.heap.filter (fun e => decide (e.1 ≠ p)),
           trace := s.trace ++ [Event.free p] }

/-- Writing the string `text` into the block at `p`. -/
def store (p : Ptr) (text : List Char) (s : State) : State :=
  { s with heap := (p, text) :: s.heap }

/-- The string held by the block at `p`, if the block is live. -/
def load (p : Ptr) (s : State) : Option (List Char) :=
  (s.heap.find? (fun e => decide (e.1 = p))).map Prod.snd

/-! ## Garbage collector (`color_lib.c` lines 23-65) -/

/-- The two list heads a `t_gc_node **` argument can point to. -/
inductive GcList where
  | active
  | trash
  deriving DecidableEq, Repr

/-- The `while (current)` loop of `free_list`: for each node, `free(current->ptr)`
then `free(current)`.  The node cells are the cells of the Lean list, so the
release of a cell itself leaves no trace. -/
def free_nodes : List Ptr → State → State
  | [], s => s
  | p :: next, s => free_nodes next (free p s)

/-- Function `free_list(&g_list_active)` / `free_list(&g_list_trash)`. -/
def free_list (head : GcList) (s : State) : State :=
  match head with
  | GcList.active => { free_nodes s.g_list_active s with g_list_active := [] }
  | GcList.trash => { free_nodes s.g_list_trash s with g_list_trash := [] }

/-- Function `gc_add(ptr)`; `node` tells whether `malloc(sizeof(t_gc_node))`
succeeds (it is only called when `ptr` is not NULL). -/
def gc_add (ptr : Option Ptr) (node : Bool) (s : State) : State :=
  match ptr with
  | none => s
  | some p =>
    if !node then free p s
    else { s with g_list_active := p :: s.g_list_active }

/-- Function `gc_clean_all()`. -/
def gc_clean_all (s : State) : State :=
  free_list GcList.trash (free_list GcList.active s)

/-- Function `gc_reset()`: returns the string literal and the new state. -/
def gc_reset (s : State) : List Char × State :=
  let s1 := free_list GcList.trash s
  let s2 := { s1 with g_list_trash := s1.g_list_active }
  let s3 := { s2 with g_list_active := [] }
  ("\x1b[0m".toList, s3)

/-! ## Formatted output -/

/-- An argument of a `printf`-family call. -/
inductive Arg where
  | str (text : List Char)
  | int (n : Int)
  deriving DecidableEq, Repr

/-- Unpadded decimal numeral of a natural number. -/
def dec (n : Nat) : List Char := Nat.toDigits 10 n

/-- Conversion `%d`. -/
def itoa (n : Int) : List Char :=
  if n < 0 then '-' :: dec n.natAbs else dec n.toNat

/-- Expansion of a format string.  Only the directives the library uses are
interpreted (`%s`, `%d`); every format of the source is a literal whose
directives match its arguments. -/
def vformat : List Char → List Arg → List Char
  | [], _ => []
  | '%' :: 's' :: fmt, Arg.str text :: args => text ++ vformat fmt args
  | '%' :: 'd' :: fmt, Arg.int n :: args => itoa n ++ vformat fmt args
  | c :: fmt, args => c :: vformat fmt args

/-- The call `snprintf(buf, size, format, ...)`: the string left in `buf`
(at most `size - 1` characters) and the return value (the full length). -/
def snprintf (size : Nat) (format : List Char) (args : List Arg) : List Char × Nat :=
  ((vformat format args).take (size - 1), (vformat format args).length)

/-- The call `printf(format, ...)`. -/
def printf (format : List Char) (args : List Arg) (s : State) : State :=
  { s with trace := s.trace ++ [Event.stdout (vformat format args)] }

/-! ## Configuration accessors and the escape-string factory -/

/-- Function `get_ansi_esc_char()`. -/
def get_ansi_esc_char (s : State) : List Char := s.g_ansi_esc_char

/-- Function `get_cursor_auto_show()`. -/
def get_cursor_auto_show (s : State) : Nat := s.g_cursor_auto_show

/-- Function `get_auto_clean()`. -/
def get_auto_clean (s : State) : Nat := s.g_auto_clean

/-- Function `gc_asprintf(format, arg)`; `str` is the result of `malloc(size)`
and `node` the outcome of the node allocation inside `gc_add`. -/
def gc_asprintf (format : List Char) (arg : Int) (str : Option Ptr) (node : Bool)
    (s : State) : Option Ptr × State :=
  let args := [Arg.str (get_ansi_esc_char s), Arg.int arg]
  let size := (snprintf 0 format args).2 + 1
  match str with
  | none => (none, s)
  | some p =>
    let s1 := store p (snprintf size format args).1 s
    let s2 := gc_add (some p) node s1
    (some p, s2)

/-- Function `gc_asprintf2(format, arg1, arg2)`. -/
def gc_asprintf2 (format : List Char) (arg1 arg2 : Int) (str : Option Ptr) (node : Bool)
    (s : State) : Option Ptr × State :=
  let args := [Arg.str (get_ansi_esc_char s), Arg.int arg1, Arg.int arg2]
  let size := (snprintf 0 format args).2 + 1
  match str with
  | none => (none, s)
  | some p =>
    let s1 := store p (snprintf size format args).1 s
    let s2 := gc_add (some p) node s1
    (some p, s2)

/-- Function `gc_asprintf3(format, arg1, arg2, arg3)`. -/
def gc_asprintf3 (format : List Char) (arg1 arg2 arg3 : Int) (str : Option Ptr)
    (node : Bool) (s : State) : Option Ptr × State :=
  let args := [Arg.str (get_ansi_esc_char s), Arg.int arg1, Arg.int arg2, Arg.int arg3]
  let size := (snprintf 0 format args).2 + 1
  match str with
  | none => (none, s)
  | some p =>
    let s1 := store p (snprintf size format args).1 s
    let s2 := gc_add (some p) node s1
    (some p, s2)

/-- Function `custom_code(code)`. -/
def custom_code (code : Nat) (str : Option Ptr) (node : Bool) (s : State) :
    Option Ptr × State :=
  gc_asprintf "%s[%dm".toList code str node s

/-- Function `cursor_cup(row, column)`. -/
def cursor_cup (row column : Nat) (str : Option Ptr) (node : Bool) (s : State) :
    Option Ptr × State :=
  if ¬ (1 ≤ row ∧ row ≤ 999) then (none, s)
  else if ¬ (1 ≤ column ∧ column ≤ 999) then (none, s)
  else gc_asprintf2 "%s[%d;%dH".toList row column str node s

/-- Function `cursor_cuu(n)`. -/
def cursor_cuu (n : Nat) (str : Option Ptr) (node : Bool) (s : State) :
    Option Ptr × State :=
  if ¬ (1 ≤ n ∧ n ≤ 999) then (none, s)
  else gc_asprintf "%s[%dA".toList n str node s

/-- Function `cursor_cud(n)`. -/
def cursor_cud (n : Nat) (str : Option Ptr) (node : Bool) (s : State) :
    Option Ptr × State :=
  if ¬ (1 ≤ n ∧ n ≤ 999) then (none, s)
  else gc_asprintf "%s[%dB".toList n str node s

/-- Function `cursor_cuf(n)`. -/
def cursor_cuf (n : Nat) (str : Option Ptr) (node : Bool) (s : State) :
    Option Ptr × State :=
  if ¬ (1 ≤ n ∧ n ≤ 999) then (none, s)
  else gc_asprintf "%s[%dC".toList n str node s

/-- Function `cursor_cub(n)`. -/
def cursor_cub (n : Nat) (str : Option Ptr) (node : Bool) (s : State) :
    Option Ptr × State :=
  if ¬ (1 ≤ n ∧ n ≤ 999) then (none, s)
  else gc_asprintf "%s[%dD".toList n str node s

/-- Function `fore_color8(color)`. -/
def fore_color8 (color : Nat) (str : Option Ptr) (node : Bool) (s : State) :
    Option Ptr × State :=
  gc_asprintf "%s[38;5;%dm".toList color str node s

/-- Function `back_color8(color)`. -/
def back_color8 (color : Nat) (str : Option Ptr) (node : Bool) (s : State) :
    Option Ptr × State :=
  gc_asprintf "%s[48;5;%dm".toList color str node s

/-- Function `underline_color8(color)`. -/
def underline_color8 (color : Nat) (str : Option Ptr) (node : Bool) (s : State) :
    Option Ptr × State :=
  gc_asprintf "%s[58;5;%dm".toList color str node s

/-- Function `fore_color24(r, g, b)`. -/
def fore_color24 (r g b : Nat) (str : Option Ptr) (node : Bool) (s : State) :
    Option Ptr × State :=
  gc_asprintf3 "%s[38;2;%d;%d;%dm".toList r g b str node s

/-- Function `back_color24(r, g, b)`. -/
def back_color24 (r g b : Nat) (str : Option Ptr) (node : Bool) (s : State) :
    Option Ptr × State :=
  gc_asprintf3 "%s[48;2;%d;%d;%dm".toList r g b str node s

/-- Function `underline_color24(r, g, b)`. -/
def underline_color24 (r g b : Nat) (str : Option Ptr) (node : Bool) (s : State) :
    Option Ptr × State :=
  gc_asprintf3 "%s[58;2;%d;%d;%dm".toList r g b str node s

/-- Function `auto_clean()`. -/
def auto_clean (s : State) : State :=
  let s1 := printf "%s".toList [Arg.str (get_ansi_esc_char s)] s
  let s2 := printf "[0m".toList [] s1
  let s3 := gc_clean_all s2
  if get_cursor_auto_show s3 ≠ 0 then
    let s4 := printf "%s".toList [Arg.str (get_ansi_esc_char s3)] s3
    printf "[?25h".toList [] s4
  else s3

/-- Function `handle_signal(sig)`: `write(STDERR_FILENO, msg, 5)` sends the
first 5 bytes of `msg`, then `_exit(128 + sig)` ends the process without
running the `atexit` functions. -/
def handle_signal (sig : Int) (s : State) : State :=
  let msg := "\x1b[0m\n".toList
  { s with trace := s.trace ++ [Event.stderr (msg.take 5)],
           exit_status := some (128 + sig) }

/-- Array `SIGNALS_TO_HANDLE` (SIGINT, SIGQUIT, SIGTERM, SIGABRT, SIGSEGV,
SIGFPE, SIGILL, with their Linux numbers). -/
def SIGNALS_TO_HANDLE : List Int := [2, 3, 15, 6, 11, 8, 4]

/-- The call `sigaction(sig, &sa, NULL)` with `sa.sa_handler = handle_signal`. -/
def sigaction (sig : Int) (s : State) : State :=
  if sig ∈ s.sig_handlers then s else { s with sig_handlers := sig :: s.sig_handlers }

/-- Function `setup_signals()`. -/
def setup_signals (s : State) : State :=
  SIGNALS_TO_HANDLE.foldl (fun st sig => sigaction sig st) s

/-! ## Static tables (`color_lib.c` lines 173-322, `color_lib.h` lines 146-156) -/

def COLOR_STR_SIZE : Nat := 8
def NB_FORE_COLORS : Nat := 16
def NB_BACK_COLORS : Nat := 16
def NB_STYLE : Nat := 14
def NB_DISABLE : Nat := 11
def NB_DEFAULT : Nat := 4
def NB_FONT : Nat := 10
def NB_MISC : Nat := 17
def NB_CURSOR : Nat := 6
def NB_SCREEN : Nat := 4

/-- A `static const char *RAW[size]` array: the initialisers given in the
source, then NULL (`none`) up to the declared size. -/
def raw_array (size : Nat) (codes : List String) : List (Option (List Char)) :=
  (codes.map (fun c => some c.toList)) ++ List.replicate (size - codes.length) none

def RAW_FORE_CODES : List (Option (List Char)) :=
  raw_array NB_FORE_COLORS
    ["[30m", "[31m", "[32m", "[33m", "[34m", "[35m", "[36m", "[37m",
     "[90m", "[91m", "[92m", "[93m", "[94m", "[95m", "[96m", "[97m"]

def RAW_BACK_CODES : List (Option (List Char)) :=
  raw_array NB_BACK_COLORS
    ["[40m", "[41m", "[42m", "[43m", "[44m", "[45m", "[46m", "[47m",
     "[100m", "[101m", "[102m", "[103m", "[104m", "[105m", "[106m", "[107m"]

def RAW_STYLE_CODES : List (Option (List Char)) :=
  raw_array NB_STYLE
    ["[0m", "[1m", "[1m", "[2m", "[2m", "[3m", "[4m", "[5m", "[6m", "[7m",
     "[8m", "[8m", "[9m", "[21m"]

/-- Declared in the source with size `NB_STYLE`. -/
def RAW_DISABLE_CODES : List (Option (List Char)) :=
  raw_array NB_STYLE
    ["[21m", "[22m", "[23m", "[23m", "[24m", "[25m", "[27m", "[28m", "[28m",
     "[29m", "[50m", "[54m", "[55m"]

def RAW_DEFAULT_CODES : List (Option (List Char)) :=
  raw_array NB_DEFAULT ["[10m", "[39m", "[49m", "[59m"]

def RAW_FONT_CODES : List (Option (List Char)) :=
  raw_array NB_FONT
    ["[11m", "[12m", "[13m", "[14m", "[15m", "[16m", "[17m", "[18m", "[19m", "[20m"]

def RAW_MISC_CODES : List (Option (List Char)) :=
  raw_array NB_MISC
    ["[26m", "[51m", "[52m", "[53m", "[60m", "[60m", "[61m", "[61m", "[62m",
     "[62m", "[63m", "[63m", "[64m", "[65m", "[65m"]

def RAW_CURSOR_CODES : List (Option (List Char)) :=
  raw_array NB_CURSOR ["[H", "[6n", "[s", "[u", "[?25l", "[?25h"]

def RAW_SCREEN_CODES : List (Option (List Char)) :=
  raw_array NB_SCREEN ["[2J", "[3J", "[K", "[2K"]

/-- The call `snprintf(T.array[i], COLOR_STR_SIZE, "%s%s", esc, raw)`: the
content left in the slot. -/
def fill_slot (esc : List Char) (raw : Option (List Char)) : Slot :=
  match raw with
  | none => none
  | some code => some (snprintf COLOR_STR_SIZE "%s%s".toList [Arg.str esc, Arg.str code]).1

/-- The loop `for (int i = 0; i < nb; i++) snprintf(T.array[i], ..., RAW[i])`. -/
def fill_table (nb : Nat) (raw : List (Option (List Char))) (esc : List Char)
    (table : List Slot) : List Slot :=
  (List.range nb).foldl (fun t i => t.set i (fill_slot esc (raw.get? i).join)) table

/-- Function `init_fore()`. -/
def init_fore (s : State) : State :=
  { s with Fore := fill_table NB_FORE_COLORS RAW_FORE_CODES (get_ansi_esc_char s) s.Fore }

/-- Function `init_back()`. -/
def init_back (s : State) : State :=
  { s with Back := fill_table NB_BACK_COLORS RAW_BACK_CODES (get_ansi_esc_char s) s.Back }

/-- Function `init_style()`. -/
def init_style (s : State) : State :=
  { s with Style := fill_table NB_STYLE RAW_STYLE_CODES (get_ansi_esc_char s) s.Style,
           Style_RESET_ALL := some StyleFn.gc_reset }

/-- Function `init_disable()`. -/
def init_disable (s : State) : State :=
  { s with Disable := fill_table NB_DISABLE RAW_DISABLE_CODES (get_ansi_esc_char s) s.Disable }

/-- Function `init_default()`. -/
def init_default (s : State) : State :=
  { s with Default := fill_table NB_DEFAULT RAW_DEFAULT_CODES (get_ansi_esc_char s) s.Default }

/-- Function `init_font()`. -/
def init_font (s : State) : State :=
  { s with Font := fill_table NB_FONT RAW_FONT_CODES (get_ansi_esc_char s) s.Font }

/-- Function `init_misc()`. -/
def init_misc (s : State) : State :=
  { s with Misc := fill_table NB_MISC RAW_MISC_CODES (get_ansi_esc_char s) s.Misc }

/-- Function `init_cursor()`. -/
def init_cursor (s : State) : State :=
  { s with Cursor := fill_table NB_CURSOR RAW_CURSOR_CODES (get_ansi_esc_char s) s.Cursor }

/-- Function `init_screen()`. -/
def init_screen (s : State) : State :=
  { s with Screen := fill_table NB_SCREEN RAW_SCREEN_CODES (get_ansi_esc_char s) s.Screen }

/-- Function `init_all()`. -/
def init_all (s : State) : State :=
  init_screen (init_cursor (init_misc (init_font (init_default
    (init_disable (init_style (init_back (init_fore s))))))))

/-! ## Initialisation (`color_lib.c` lines 481-527, `color_lib.h` lines 91-107) -/

def COLOR_FLAG_NONE : Int := 0
def COLOR_FLAG_INIT_FORE : Int := 1
def COLOR_FLAG_INIT_BACK : Int := 2
def COLOR_FLAG_INIT_STYLE : Int := 4
def COLOR_FLAG_INIT_DISABLE : Int := 8
def COLOR_FLAG_INIT_DEFAULT : Int := 16
def COLOR_FLAG_INIT_FONT : Int := 32
def COLOR_FLAG_INIT_MISC : Int := 64
def COLOR_FLAG_INIT_CURSOR : Int := 128
def COLOR_FLAG_INIT_SCREEN : Int := 256

def COLOR_FLAG_INIT_ALL : Int :=
  [COLOR_FLAG_INIT_FORE, COLOR_FLAG_INIT_BACK, COLOR_FLAG_INIT_STYLE,
   COLOR_FLAG_INIT_DISABLE, COLOR_FLAG_INIT_DEFAULT, COLOR_FLAG_INIT_FONT,
   COLOR_FLAG_INIT_MISC, COLOR_FLAG_INIT_CURSOR, COLOR_FLAG_INIT_SCREEN].foldl Int.lor 0

def COLOR_FLAG_DEFAULT : Int := COLOR_FLAG_INIT_ALL

/-- The functions an `InitEntry` can point to. -/
inductive InitFunction where
  | init_fore | init_back | init_style | init_disable | init_default
  | init_font | init_misc | init_cursor | init_screen | init_all
  deriving DecidableEq, Repr

/-- Calling through an `InitFunction` pointer. -/
def InitFunction.call : InitFunction → State → State
  | InitFunction.init_fore => ColorLib.init_fore
  | InitFunction.init_back => ColorLib.init_back
  | InitFunction.init_style => ColorLib.init_style
  | InitFunction.init_disable => ColorLib.init_disable
  | InitFunction.init_default => ColorLib.init_default
  | InitFunction.init_font => ColorLib.init_font
  | InitFunction.init_misc => ColorLib.init_misc
  | InitFunction.init_cursor => ColorLib.init_cursor
  | InitFunction.init_screen => ColorLib.init_screen
  | InitFunction.init_all => ColorLib.init_all

/-- Array `init_map`. -/
def init_map : List (Int × InitFunction) :=
  [(COLOR_FLAG_INIT_FORE, InitFunction.init_fore),
   (COLOR_FLAG_INIT_BACK, InitFunction.init_back),
   (COLOR_FLAG_INIT_STYLE, InitFunction.init_style),
   (COLOR_FLAG_INIT_DISABLE, InitFunction.init_disable),
   (COLOR_FLAG_INIT_DEFAULT, InitFunction.init_default),
   (COLOR_FLAG_INIT_FONT, InitFunction.init_font),
   (COLOR_FLAG_INIT_MISC, InitFunction.init_misc),
   (COLOR_FLAG_INIT_CURSOR, InitFunction.init_cursor),
   (COLOR_FLAG_INIT_SCREEN, InitFunction.init_screen),
   (COLOR_FLAG_INIT_ALL, InitFunction.init_all)]

/-- The call `atexit(f)` (taken to succeed). -/
def atexit (f : ExitFn) (s : State) : State :=
  { s with atexit_fns := f :: s.atexit_fns }

/-- The loop of `init_color` over `init_map`:
`if (o_flags & init_map[i].flag) init_map[i].function();`. -/
def init_color_loop (o_flags : Int) (s : State) : State :=
  init_map.foldl
    (fun st entry => if Int.land o_flags entry.1 ≠ 0 then entry.2.call st else st) s

/-- Function `init_color(o_ansi_esc_char, o_cursor_auto_show, o_auto_clean,
o_intercept_sig, o_flags)`. -/
def init_color (o_ansi_esc_char : Option (List Char))
    (o_cursor_auto_show o_auto_clean o_intercept_sig : Nat) (o_flags : Int)
    (s : State) : State :=
  let s1 := { s with g_ansi_esc_char :=
                match o_ansi_esc_char with
                | some e => e
                | none => "\x1b".toList }
  let s2 := { s1 with g_cursor_auto_show := o_cursor_auto_show }
  let s3 := { s2 with g_auto_clean := o_auto_clean }
  let s4 := init_color_loop o_flags s3
  let s5 := if o_intercept_sig ≠ 0 then setup_signals s4 else s4
  if o_auto_clean ≠ 0 then atexit ExitFn.auto_clean (atexit ExitFn.gc_clean_all s5)
  else s5

/-- The state of the process before any code of the library has run: the
initialisers of the globals, zero-filled tables, nothing allocated. -/
def State.startup : State :=
  { g_list_active := [], g_list_trash := [],
    g_ansi_esc_char := "\x1b".toList,
    g_cursor_auto_show := 1, g_auto_clean := 1,
    Fore := List.replicate NB_FORE_COLORS (some []),
    Back := List.replicate NB_BACK_COLORS (some []),
    Style := List.replicate NB_STYLE (some []),
    Style_RESET_ALL := none,
    Disable := List.replicate NB_DISABLE (some []),
    Default := List.replicate NB_DEFAULT (some []),
    Font := List.replicate NB_FONT (some []),
    Misc := List.replicate NB_MISC (some []),
    Cursor := List.replicate NB_CURSOR (some []),
    Screen := List.replicate NB_SCREEN (some []),
    heap := [], trace := [], atexit_fns := [], sig_handlers := [],
    exit_status := none }

/-- Function `auto_init()`, run as a constructor before `main`. -/
def auto_init (s : State) : State :=
  init_color none 1 1 1 COLOR_FLAG_INIT_DEFAULT s

/-- Calling a function registered with `atexit`. -/
def ExitFn.call : ExitFn → State → State
  | ExitFn.gc_clean_all => ColorLib.gc_clean_all
  | ExitFn.auto_clean => ColorLib.auto_clean

/-- Normal process termination (`exit`, or return from `main`): the
registered functions are called in the reverse order of their registration. -/
def run_atexit (s : State) : State :=
  { s.atexit_fns.foldl (fun st f => f.call st) s with atexit_fns := [] }

/-! ## Calls as data: generators and tracker operations -/

/-- A call of one of the public dynamic generators, with its arguments. -/
inductive Generator where
  | custom_code (code : Nat)
  | cursor_cup (row column : Nat)
  | cursor_cuu (n : Nat)
  | cursor_cud (n : Nat)
  | cursor_cuf (n : Nat)
  | cursor_cub (n : Nat)
  | fore_color8 (color : Nat)
  | back_color8 (color : Nat)
  | underline_color8 (color : Nat)
  | fore_color24 (r g b : Nat)
  | back_color24 (r g b : Nat)
  | underline_color24 (r g b : Nat)
  deriving DecidableEq, Repr

/-- Performing a generator call, given the outcomes of its two allocations. -/
def Generator.call : Generator → Option Ptr → Bool → State → Option Ptr × State
  | Generator.custom_code code => ColorLib.custom_code code
  | Generator.cursor_cup row column => ColorLib.cursor_cup row column
  | Generator.cursor_cuu n => ColorLib.cursor_cuu n
  | Generator.cursor_cud n => ColorLib.cursor_cud n
  | Generator.cursor_cuf n => ColorLib.cursor_cuf n
  | Generator.cursor_cub n => ColorLib.cursor_cub n
  | Generator.fore_color8 color => ColorLib.fore_color8 color
  | Generator.back_color8 color => ColorLib.back_color8 color
  | Generator.underline_color8 color => ColorLib.underline_color8 color
  | Generator.fore_color24 r g b => ColorLib.fore_color24 r g b
  | Generator.back_color24 r g b => ColorLib.back_color24 r g b
  | Generator.underline_color24 r g b => ColorLib.underline_color24 r g b

/-- One step of a client program that uses the tracker. -/
inductive Op where
  | generate (g : Generator) (str : Option Ptr) (node : Bool)
  | gc_add (ptr : Option Ptr) (node : Bool)
  | gc_reset
  | gc_clean_all
  deriving DecidableEq, Repr

/-- Effect of one step on the state. -/
def Op.step : Op → State → State
  | Op.generate g str node, s => (g.call str node s).2
  | Op.gc_add ptr node, s => ColorLib.gc_add ptr node s
  | Op.gc_reset, s => (ColorLib.gc_reset s).2
  | Op.gc_clean_all, s => ColorLib.gc_clean_all s

/-- Effect of a sequence of steps, first step first. -/
def run_ops (ops : List Op) (s : State) : State :=
  ops.foldl (fun st op => op.step st) s

/-- The step is a generator call or a registration whose buffer is not `b`
(an allocator never hands out the address of a live block). -/
def Op.generatesOther (b : Ptr) : Op → Prop
  | Op.generate _ str _ => str ≠ some b
  | Op.gc_add ptr _ => ptr ≠ some b
  | Op.gc_reset => False
  | Op.gc_clean_all => False

instance (b : Ptr) (op : Op) : Decidable (op.generatesOther b) := by
  cases op <;> unfold Op.generatesOther <;> infer_instance

/-! ## Reading the trace -/

/-- The effects performed between state `s` and a later state `s2`. -/
def new_events (s s2 : State) : List Event :=
  s2.trace.drop s.trace.length

/-- The buffers freed by a list of effects, one entry per `free` call. -/
def freed : List Event → List Ptr
  | [] => []
  | Event.free p :: evs => p :: freed evs
  | _ :: evs => freed evs

/-- The characters sent to standard output by a list of effects. -/
def stdout_text : List Event → List Char
  | [] => []
  | Event.stdout text :: evs => text ++ stdout_text evs
  | _ :: evs => stdout_text evs

/-- The bytes sent to the error stream by a list of effects. -/
def stderr_text : List Event → List Char
  | [] => []
  | Event.stderr text :: evs => text ++ stderr_text evs
  | _ :: evs => stderr_text evs

/-! ## Specification-side vocabulary for the generators -/

/-- Whether the arguments of a generator call pass the range checks of the
source (`1 <= n && n <= 999` on every row, column and count; the colour and
code generators have no check). -/
def Generator.inRange : Generator → Prop
  | Generator.cursor_cup row column => (1 ≤ row ∧ row ≤ 999) ∧ (1 ≤ column ∧ column ≤ 999)
  | Generator.cursor_cuu n => 1 ≤ n ∧ n ≤ 999
  | Generator.cursor_cud n => 1 ≤ n ∧ n ≤ 999
  | Generator.cursor_cuf n => 1 ≤ n ∧ n ≤ 999
  | Generator.cursor_cub n => 1 ≤ n ∧ n ≤ 999
  | _ => True

instance (g : Generator) : Decidable g.inRange := by
  cases g <;> unfold Generator.inRange <;> infer_instance

/-- The bracketed body the specification expects after the escape string in
the result of a generator call (written from the specification, to be
compared with what the embedded functions produce). -/
def Generator.body : Generator → List Char
  | Generator.custom_code code => "[".toList ++ dec code ++ "m".toList
  | Generator.cursor_cup row column =>
      "[".toList ++ dec row ++ ";".toList ++ dec column ++ "H".toList
  | Generator.cursor_cuu n => "[".toList ++ dec n ++ "A".toList
  | Generator.cursor_cud n => "[".toList ++ dec n ++ "B".toList
  | Generator.cursor_cuf n => "[".toList ++ dec n ++ "C".toList
  | Generator.cursor_cub n => "[".toList ++ dec n ++ "D".toList
  | Generator.fore_color8 color => "[38;5;".toList ++ dec color ++ "m".toList
  | Generator.back_color8 color => "[48;5;".toList ++ dec color ++ "m".toList
  | Generator.underline_color8 color => "[58;5;".toList ++ dec color ++ "m".toList
  | Generator.fore_color24 r g b =>
      "[38;2;".toList ++ dec r ++ ";".toList ++ dec g ++ ";".toList ++ dec b ++ "m".toList
  | Generator.back_color24 r g b =>
      "[48;2;".toList ++ dec r ++ ";".toList ++ dec g ++ ";".toList ++ dec b ++ "m".toList
  | Generator.underline_color24 r g b =>
      "[58;2;".toList ++ dec r ++ ";".toList ++ dec g ++ ";".toList ++ dec b ++ "m".toList

/-- The buffer address handed to a step by the allocator or by the caller. -/
def Op.buffers : Op → List Ptr
  | Op.generate _ (some p) _ => [p]
  | Op.gc_add (some p) _ => [p]
  | _ => []

/-- The buffer addresses handed to the steps of a program, in order. -/
def buffers_of : List Op → List Ptr
  | [] => []
  | op :: ops => op.buffers ++ buffers_of ops

/-! ## The static tables as data -/

/-- The nine static tables of the library. -/
inductive Table where
  | Fore | Back | Style | Disable | Default | Font | Misc | Cursor | Screen
  deriving DecidableEq, Repr

/-- The loop bound `NB_...` used by the initialiser of the table. -/
def Table.nb : Table → Nat
  | Table.Fore => NB_FORE_COLORS
  | Table.Back => NB_BACK_COLORS
  | Table.Style => NB_STYLE
  | Table.Disable => NB_DISABLE
  | Table.Default => NB_DEFAULT
  | Table.Font => NB_FONT
  | Table.Misc => NB_MISC
  | Table.Cursor => NB_CURSOR
  | Table.Screen => NB_SCREEN

/-- The `RAW_..._CODES` array read by the initialiser of the table. -/
def Table.raw : Table → List (Option (List Char))
  | Table.Fore => RAW_FORE_CODES
  | Table.Back => RAW_BACK_CODES
  | Table.Style => RAW_STYLE_CODES
  | Table.Disable => RAW_DISABLE_CODES
  | Table.Default => RAW_DEFAULT_CODES
  | Table.Font => RAW_FONT_CODES
  | Table.Misc => RAW_MISC_CODES
  | Table.Cursor => RAW_CURSOR_CODES
  | Table.Screen => RAW_SCREEN_CODES

/-- The `array` member of the table in a state. -/
def Table.read : Table → State → List Slot
  | Table.Fore, s => s.Fore
  | Table.Back, s => s.Back
  | Table.Style, s => s.Style
  | Table.Disable, s => s.Disable
  | Table.Default, s => s.Default
  | Table.Font, s => s.Font
  | Table.Misc, s => s.Misc
  | Table.Cursor, s => s.Cursor
  | Table.Screen, s => s.Screen

/-- The initialiser of the table (`init_fore`, ..., `init_screen`). -/
def Table.init : Table → State → State
  | Table.Fore => init_fore
  | Table.Back => init_back
  | Table.Style => init_style
  | Table.Disable => init_disable
  | Table.Default => init_default
  | Table.Font => init_font
  | Table.Misc => init_misc
  | Table.Cursor => init_cursor
  | Table.Screen => init_screen

/-- Calling through the function pointer `Style.RESET_ALL`. -/
def StyleFn.call : StyleFn → State → List Char × State
  | StyleFn.gc_reset => ColorLib.gc_reset

/-! ## Reading decimal numerals back -/

/-- The value of a decimal digit character. -/
def digit_value (c : Char) : Nat := c.toNat - 48

/-- The number denoted by a string of decimal digits, most significant
digit first. -/
def undec (cs : List Char) : Nat :=
  cs.foldl (fun acc c => 10 * acc + digit_value c) 0

/-! ## Buffering of standard output

`printf` hands its characters to the `stdout` stream of the C library, which
writes them out when it is flushed.  The library never calls `fflush` or
`setvbuf`; `exit` flushes the stream after the functions registered with
`atexit` have returned. -/

/-- The state with the static tables blanked: what the table initialisers
cannot change. -/
def State.without_tables (s : State) : State :=
  { s with Fore := [], Back := [], Style := [], Style_RESET_ALL := none, Disable := [],
           Default := [], Font := [], Misc := [], Cursor := [], Screen := [] }

/-- The state with the signal dispositions blanked: what `setup_signals`
cannot change. -/
def State.without_handlers (s : State) : State :=
  { s with sig_handlers := [] }

/-! # Theorems -/

/-! ## Tracker operations in closed form -/

theorem new_events_eq {s s2 : State} {evs : List Event} (h : s2.trace = s.trace ++ evs) :
    new_events s s2 = evs := by
  simp [new_events, h]

theorem freed_map_free (l : List Ptr) : freed (l.map Event.free) = l := by
  induction l with
  | nil => rfl
  | cons p l ih => simp [freed, ih]

theorem freed_append (xs ys : List Event) : freed (xs ++ ys) = freed xs ++ freed ys := by
  induction xs with
  | nil => rfl
  | cons e xs ih => cases e <;> simp [freed, ih]

/-- The loop of `free_list` in closed form. -/
theorem free_nodes_eq (l : List Ptr) (s : State) :
    free_nodes l s =
      { s with heap := s.heap.filter (fun e => decide (e.1 ∉ l)),
               trace := s.trace ++ l.map Event.free } := by
  induction l generalizing s with
  | nil => simp [free_nodes]
  | cons p l ih =>
    simp only [free_nodes, ih, free, List.filter_filter, List.map_cons, List.append_assoc,
      List.singleton_append, List.mem_cons, not_or]
    congr 1
    apply List.filter_congr
    intro e _
    by_cases h1 : e.1 = p <;> by_cases h2 : e.1 ∈ l <;> simp [h1, h2]

theorem gc_reset_eq (s : State) :
    gc_reset s = ("\x1b[0m".toList,
      { s with g_list_active := [], g_list_trash := s.g_list_active,
               heap := s.heap.filter (fun e => decide (e.1 ∉ s.g_list_trash)),
               trace := s.trace ++ s.g_list_trash.map Event.free }) := by
  simp [gc_reset, free_list, free_nodes_eq]

theorem gc_clean_all_eq (s : State) :
    gc_clean_all s =
      { s with g_list_active := [], g_list_trash := [],
               heap := s.heap.filter (fun e => decide (e.1 ∉ s.g_list_active ++ s.g_list_trash)),
               trace := s.trace ++ (s.g_list_active ++ s.g_list_trash).map Event.free } := by
  simp only [gc_clean_all, free_list, free_nodes_eq, List.filter_filter, List.map_append,
    List.append_assoc, List.mem_append, not_or]
  congr 1
  apply List.filter_congr
  intro e _
  by_cases h1 : e.1 ∈ s.g_list_active <;> by_cases h2 : e.1 ∈ s.g_list_trash <;> simp [h1, h2]

/-! ## Generator calls and the tracker -/

/-- Every generator call either rejects its arguments or fails to allocate
its buffer (NULL, state untouched), or writes some text into the buffer it
was given and passes that buffer to `gc_add`. -/
theorem generator_call_cases (g : Generator) (str : Option Ptr) (node : Bool) (s : State) :
    g.call str node s = (none, s) ∨
    ∃ p text, str = some p ∧
      g.call str node s = (some p, gc_add (some p) node (store p text s)) := by
  cases str with
  | none =>
    left
    cases g <;>
      simp only [Generator.call, custom_code, cursor_cup, cursor_cuu, cursor_cud, cursor_cuf,
        cursor_cub, fore_color8, back_color8, underline_color8, fore_color24, back_color24,
        underline_color24, gc_asprintf, gc_asprintf2, gc_asprintf3] <;>
      (repeat (split <;> try rfl))
  | some p =>
    cases g <;>
      simp only [Generator.call, custom_code, cursor_cup, cursor_cuu, cursor_cud, cursor_cuf,
        cursor_cub, fore_color8, back_color8, underline_color8, fore_color24, back_color24,
        underline_color24, gc_asprintf, gc_asprintf2, gc_asprintf3] <;>
      (repeat (first | (right; exact ⟨p, _, rfl, rfl⟩) | (left; rfl) | split))

theorem load_store_ne {b p : Ptr} (h : p ≠ b) (text : List Char) (s : State) :
    load b (store p text s) = load b s := by
  simp [load, store, List.find?_cons, h]

theorem find_filter_notMem (b : Ptr) (l : List Ptr) (hb : b ∉ l)
    (heap : List (Ptr × List Char)) :
    (heap.filter (fun e => decide (e.1 ∉ l))).find? (fun e => decide (e.1 = b))
      = heap.find? (fun e => decide (e.1 = b)) := by
  rw [List.find?_filter]
  congr 1
  funext a
  by_cases h : a.1 = b
  · simp [h, hb]
  · simp [h]

theorem load_free_ne {b p : Ptr} (h : p ≠ b) (s : State) :
    load b (free p s) = load b s := by
  have := find_filter_notMem b [p] (by simpa using Ne.symm h) s.heap
  simpa [load, free] using congrArg (Option.map Prod.snd) this

/-- A generator call or registration that does not involve `b` only prepends
other buffers to active, leaves trash alone, frees nothing but (possibly) its
own buffer, and does not touch the content of `b`. -/
theorem step_other (b : Ptr) (op : Op) (h : op.generatesOther b) (s : State) :
    ∃ added evs, (op.step s).g_list_active = added ++ s.g_list_active ∧ b ∉ added ∧
      (op.step s).g_list_trash = s.g_list_trash ∧
      (op.step s).trace = s.trace ++ evs ∧ b ∉ freed evs ∧
      load b (op.step s) = load b s := by
  have key : ∀ (ptr : Option Ptr) (node : Bool) (t : State), ptr ≠ some b →
      t.g_list_active = s.g_list_active → t.g_list_trash = s.g_list_trash →
      t.trace = s.trace → load b t = load b s →
      ∃ added evs, (gc_add ptr node t).g_list_active = added ++ s.g_list_active ∧ b ∉ added ∧
        (gc_add ptr node t).g_list_trash = s.g_list_trash ∧
        (gc_add ptr node t).trace = s.trace ++ evs ∧ b ∉ freed evs ∧
        load b (gc_add ptr node t) = load b s := by
    intro ptr node t hne ha ht htr hl
    cases ptr with
    | none => exact ⟨[], [], by simp [gc_add, ha], by simp, by simp [gc_add, ht],
        by simp [gc_add, htr], by simp [freed], by simp [gc_add, hl]⟩
    | some p =>
      have hpb : p ≠ b := fun e => hne (by rw [e])
      cases node with
      | true =>
        refine ⟨[p], [], by simp [gc_add, ha], by simpa using Ne.symm hpb, by simp [gc_add, ht],
          by simp [gc_add, htr], by simp [freed], ?_⟩
        rw [← hl]
        simp [gc_add, load]
      | false =>
        refine ⟨[], [Event.free p], by simp [gc_add, free, ha], by simp,
          by simp [gc_add, free, ht], by simp [gc_add, free, htr],
          by simpa [freed] using Ne.symm hpb, ?_⟩
        rw [← hl]
        simpa [gc_add] using load_free_ne hpb t
  cases op with
  | generate g str node =>
    have hne : str ≠ some b := h
    rcases generator_call_cases g str node s with hc | ⟨p, text, hstr, hc⟩
    · exact ⟨[], [], by simp [Op.step, hc], by simp, by simp [Op.step, hc],
        by simp [Op.step, hc], by simp [freed], by simp [Op.step, hc]⟩
    · have hpb : p ≠ b := fun e => hne (by rw [hstr, e])
      simp only [Op.step, hc]
      exact key (some p) node (store p text s) (by simpa using hpb) rfl rfl rfl
        (load_store_ne hpb text s)
  | gc_add ptr node => exact key ptr node s h rfl rfl rfl rfl
  | gc_reset => exact absurd h (by simp [Op.generatesOther])
  | gc_clean_all => exact absurd h (by simp [Op.generatesOther])

theorem run_other (b : Ptr) (ops : List Op) (h : ∀ op ∈ ops, op.generatesOther b)
    (s : State) :
    ∃ added evs, (run_ops ops s).g_list_active = added ++ s.g_list_active ∧ b ∉ added ∧
      (run_ops ops s).g_list_trash = s.g_list_trash ∧
      (run_ops ops s).trace = s.trace ++ evs ∧ b ∉ freed evs ∧
      load b (run_ops ops s) = load b s := by
  induction ops generalizing s with
  | nil => exact ⟨[], [], by simp [run_ops], by simp, by simp [run_ops], by simp [run_ops],
      by simp [freed], by simp [run_ops]⟩
  | cons op ops ih =>
    obtain ⟨a1, e1, ha1, hb1, ht1, htr1, hf1, hl1⟩ :=
      step_other b op (h op (List.mem_cons_self _ _)) s
    obtain ⟨a2, e2, ha2, hb2, ht2, htr2, hf2, hl2⟩ :=
      ih (fun o ho => h o (List.mem_cons_of_mem _ ho)) (op.step s)
    have hrun : run_ops (op :: ops) s = run_ops ops (op.step s) := by simp [run_ops]
    refine ⟨a2 ++ a1, e1 ++ e2, ?_, ?_, ?_, ?_, ?_, ?_⟩
    · rw [hrun, ha2, ha1, List.append_assoc]
    · simp [hb1, hb2]
    · rw [hrun, ht2, ht1]
    · rw [hrun, htr2, htr1, List.append_assoc]
    · simp [freed_append, hf1, hf2]
    · rw [hrun, hl2, hl1]

/-! ## Formatting -/

theorem itoa_natCast (n : Nat) : itoa (n : Int) = dec n := by
  simp [itoa]

theorem load_store (p : Ptr) (text : List Char) (s : State) :
    load p (store p text s) = some text := by
  simp [load, store]

/-- A buffer of `size` bytes, with `size` computed by the measuring call, holds
the whole expansion. -/
theorem snprintf_fit (format : List Char) (args : List Arg) :
    (snprintf ((snprintf 0 format args).2 + 1) format args).1 = vformat format args := by
  simp [snprintf]

theorem vformat_cup (esc : List Char) (a b : Int) :
    vformat "%s[%d;%dH".toList [Arg.str esc, Arg.int a, Arg.int b]
      = esc ++ '[' :: itoa a ++ ';' :: itoa b ++ ['H'] := by
  simp [vformat]

/-! ## C1: cursor positioning -/

/-- C1. For 16-bit `row` and `column`, with the default escape character and
both allocations succeeding: when `1 ≤ row ≤ 999` and `1 ≤ column ≤ 999`,
`cursor_cup` returns the allocated buffer and that buffer holds exactly
ESC `[` dec(row) `;` dec(column) `H`; when `row` or `column` is outside
`[1,999]`, it returns NULL (whatever the allocator would have answered) and
leaves the state as it was. -/
theorem cursor_cup_spec (row column : Nat) (p : Ptr) (s : State)
    (_hrow : row < 65536) (_hcol : column < 65536)
    (hesc : s.g_ansi_esc_char = "\x1b".toList) :
    ((1 ≤ row ∧ row ≤ 999) ∧ (1 ≤ column ∧ column ≤ 999) →
      (cursor_cup row column (some p) true s).1 = some p ∧
      load p (cursor_cup row column (some p) true s).2
        = some ("\x1b[".toList ++ dec row ++ ";".toList ++ dec column ++ "H".toList)) ∧
    (¬ ((1 ≤ row ∧ row ≤ 999) ∧ (1 ≤ column ∧ column ≤ 999)) →
      ∀ str node, cursor_cup row column str node s = (none, s)) := by
  constructor
  · rintro ⟨hr, hc⟩
    simp only [cursor_cup, hr, hc, not_true_eq_false, if_false, and_self, gc_asprintf2,
      snprintf_fit, vformat_cup, itoa_natCast, get_ansi_esc_char, hesc]
    simp [gc_add, load, store]
  · intro h str node
    unfold cursor_cup
    by_cases hr : 1 ≤ row ∧ row ≤ 999
    · have hc : ¬ (1 ≤ column ∧ column ≤ 999) := fun hc => h ⟨hr, hc⟩
      simp [hr, hc]
    · simp [hr]

/-- Witness for C1: row 12, column 345 gives `ESC[12;345H`; row 1000 and
row 0 give NULL. -/
theorem cursor_cup_spec_witness :
    ((cursor_cup 12 345 (some 7) true State.startup).1 = some 7 ∧
      load 7 (cursor_cup 12 345 (some 7) true State.startup).2
        = some "\x1b[12;345H".toList) ∧
    cursor_cup 1000 1 (some 7) true State.startup = (none, State.startup) ∧
    cursor_cup 0 1 (some 7) true State.startup = (none, State.startup) :=
  ⟨(cursor_cup_spec 12 345 7 State.startup (by decide) (by decide) rfl).1 (by decide),
   (cursor_cup_spec 1000 1 7 State.startup (by decide) (by decide) rfl).2 (by decide)
     (some 7) true,
   (cursor_cup_spec 0 1 7 State.startup (by decide) (by decide) rfl).2 (by decide)
     (some 7) true⟩

/-! ## C2: the soft-reset guarantee -/

/-- C2. Let `b` be a buffer that is fresh for the tracker state `s` (tracked by
neither list) and let `s1` be the state after `b` has been registered, either
by `gc_add(b)` or by a generator call that returns `b`.  Then `b` is in active
and not freed; after any number of further generator calls or registrations
(`calls1`, none of which is handed the live address `b`) it is still in
active, not freed, with its content intact; after the first following
`gc_reset` it is in trash, still not freed and intact, and it stays so through
further generator calls (`calls2`).  The second following `gc_reset` frees it
exactly once, and so does `gc_clean_all` called before or after the first
`gc_reset`. -/
theorem soft_reset_guarantee (s s1 : State) (b : Ptr) (calls1 calls2 : List Op)
    (hfresh : b ∉ s.g_list_active ∧ b ∉ s.g_list_trash)
    (hreg : s1 = gc_add (some b) true s ∨ ∃ g : Generator, g.call (some b) true s = (some b, s1))
    (h1 : ∀ op ∈ calls1, op.generatesOther b)
    (h2 : ∀ op ∈ calls2, op.generatesOther b) :
    (b ∈ s1.g_list_active ∧ b ∉ freed (new_events s s1)) ∧
    (b ∈ (run_ops calls1 s1).g_list_active ∧
      b ∉ freed (new_events s (run_ops calls1 s1)) ∧
      load b (run_ops calls1 s1) = load b s1) ∧
    (b ∈ (gc_reset (run_ops calls1 s1)).2.g_list_trash ∧
      b ∉ freed (new_events s (gc_reset (run_ops calls1 s1)).2) ∧
      load b (gc_reset (run_ops calls1 s1)).2 = load b s1) ∧
    (b ∈ (run_ops calls2 (gc_reset (run_ops calls1 s1)).2).g_list_trash ∧
      b ∉ freed (new_events s (run_ops calls2 (gc_reset (run_ops calls1 s1)).2)) ∧
      load b (run_ops calls2 (gc_reset (run_ops calls1 s1)).2) = load b s1) ∧
    (freed (new_events s
      (gc_reset (run_ops calls2 (gc_reset (run_ops calls1 s1)).2)).2)).count b = 1 ∧
    (freed (new_events s (gc_clean_all (run_ops calls1 s1)))).count b = 1 ∧
    (freed (new_events s
      (gc_clean_all (run_ops calls2 (gc_reset (run_ops calls1 s1)).2)))).count b = 1 := by
  obtain ⟨hbA, hbT⟩ := hfresh
  -- the registration itself
  have hs1 : s1.g_list_active = b :: s.g_list_active ∧ s1.g_list_trash = s.g_list_trash ∧
      s1.trace = s.trace := by
    rcases hreg with rfl | ⟨g, hg⟩
    · simp [gc_add]
    · rcases generator_call_cases g (some b) true s with hc | ⟨p, text, hp, hc⟩
      · rw [hc] at hg
        simp at hg
      · rw [hc] at hg
        obtain ⟨hpb, rfl⟩ := Prod.mk.inj hg
        obtain rfl : p = b := Option.some.inj hpb
        simp [gc_add, store]
  obtain ⟨hA1, hT1, htr1⟩ := hs1
  -- further calls before the first reset
  obtain ⟨a2, e2, hA2, hb2, hT2, htr2, hf2, hl2⟩ := run_other b calls1 h1 s1
  rw [hA1] at hA2
  rw [hT1] at hT2
  rw [htr1] at htr2
  -- the first reset
  have hR := gc_reset_eq (run_ops calls1 s1)
  have hA3 : (gc_reset (run_ops calls1 s1)).2.g_list_active = [] := by rw [hR]
  have hT3 : (gc_reset (run_ops calls1 s1)).2.g_list_trash = a2 ++ b :: s.g_list_active := by
    rw [hR]; exact hA2
  have htr3 : (gc_reset (run_ops calls1 s1)).2.trace
      = s.trace ++ (e2 ++ s.g_list_trash.map Event.free) := by
    rw [hR]; simp [htr2, hT2]
  have hl3 : load b (gc_reset (run_ops calls1 s1)).2 = load b s1 := by
    rw [hR, ← hl2]
    have := find_filter_notMem b (run_ops calls1 s1).g_list_trash (by rw [hT2]; exact hbT)
      (run_ops calls1 s1).heap
    simpa [load] using congrArg (Option.map Prod.snd) this
  -- further calls before the second reset
  obtain ⟨a4, e4, hA4, hb4, hT4, htr4, hf4, hl4⟩ :=
    run_other b calls2 h2 (gc_reset (run_ops calls1 s1)).2
  rw [hA3] at hA4
  rw [hT3] at hT4
  rw [htr3, List.append_assoc] at htr4
  have hcount : (a2 ++ b :: s.g_list_active).count b = 1 := by
    simp [List.count_append, List.count_cons, List.count_eq_zero_of_not_mem hb2,
      List.count_eq_zero_of_not_mem hbA]
  refine ⟨⟨?_, ?_⟩, ⟨?_, ?_, hl2⟩, ⟨?_, ?_, hl3⟩, ⟨?_, ?_, ?_⟩, ?_, ?_, ?_⟩
  · simp [hA1]
  · rw [@new_events_eq s s1 [] (by simp [htr1])]
    simp [freed]
  · simp [hA2]
  · rw [new_events_eq htr2]
    exact hf2
  · simp [hT3]
  · rw [new_events_eq htr3, freed_append, freed_map_free]
    simp [hf2, hbT]
  · simp [hT4]
  · rw [new_events_eq htr4, freed_append, freed_append, freed_map_free]
    simp [hf2, hbT, hf4]
  · rw [hl4, hl3]
  · have htr5 : (gc_reset (run_ops calls2 (gc_reset (run_ops calls1 s1)).2)).2.trace
        = s.trace ++ ((e2 ++ s.g_list_trash.map Event.free) ++ e4
            ++ (a2 ++ b :: s.g_list_active).map Event.free) := by
      rw [gc_reset_eq]; simp [htr4, hT4]
    rw [new_events_eq htr5]
    simp only [freed_append, freed_map_free, List.count_append, hcount,
      List.count_eq_zero_of_not_mem hf2, List.count_eq_zero_of_not_mem hbT,
      List.count_eq_zero_of_not_mem hf4]
  · have htr5 : (gc_clean_all (run_ops calls1 s1)).trace
        = s.trace ++ (e2 ++ ((a2 ++ b :: s.g_list_active) ++ s.g_list_trash).map Event.free) := by
      rw [gc_clean_all_eq]; simp [htr2, hT2, hA2]
    rw [new_events_eq htr5]
    simp only [freed_append, freed_map_free, List.count_append, hcount,
      List.count_eq_zero_of_not_mem hf2, List.count_eq_zero_of_not_mem hbT]
  · have htr5 : (gc_clean_all (run_ops calls2 (gc_reset (run_ops calls1 s1)).2)).trace
        = s.trace ++ ((e2 ++ s.g_list_trash.map Event.free) ++ e4
            ++ ((a4 ++ []) ++ (a2 ++ b :: s.g_list_active)).map Event.free) := by
      rw [gc_clean_all_eq]; simp [htr4, hT4, hA4]
    rw [new_events_eq htr5]
    simp only [freed_append, freed_map_free, List.count_append, hcount,
      List.count_eq_zero_of_not_mem hf2, List.count_eq_zero_of_not_mem hbT,
      List.count_eq_zero_of_not_mem hf4, List.count_eq_zero_of_not_mem hb4, List.count_nil]

/-- Witness for C2: buffer 7 is returned by `cursor_cuu(3)` at start-up; one
more generator call follows before the first reset and one (whose node
allocation fails) after it. -/
theorem soft_reset_guarantee_witness :
    (7 ∉ State.startup.g_list_active ∧ 7 ∉ State.startup.g_list_trash) ∧
    (7 ∈ (run_ops [Op.generate (Generator.cursor_cud 4) (some 9) false]
        (gc_reset (run_ops [Op.generate (Generator.cursor_cuf 2) (some 8) true]
          (cursor_cuu 3 (some 7) true State.startup).2)).2).g_list_trash ∧
      7 ∉ freed (new_events State.startup
        (run_ops [Op.generate (Generator.cursor_cud 4) (some 9) false]
          (gc_reset (run_ops [Op.generate (Generator.cursor_cuf 2) (some 8) true]
            (cursor_cuu 3 (some 7) true State.startup).2)).2)) ∧
      load 7 (run_ops [Op.generate (Generator.cursor_cud 4) (some 9) false]
          (gc_reset (run_ops [Op.generate (Generator.cursor_cuf 2) (some 8) true]
            (cursor_cuu 3 (some 7) true State.startup).2)).2)
        = load 7 (cursor_cuu 3 (some 7) true State.startup).2) :=
  ⟨by decide,
   (soft_reset_guarantee State.startup (cursor_cuu 3 (some 7) true State.startup).2 7
      [Op.generate (Generator.cursor_cuf 2) (some 8) true]
      [Op.generate (Generator.cursor_cud 4) (some 9) false]
      (by decide) (Or.inr ⟨Generator.cursor_cuu 3, rfl⟩) (by decide) (by decide)).2.2.2.1⟩

/-! ## C3: soft reset -/

/-- C3. For every tracker state with active list `A` and trash list `T`,
`gc_reset` performs exactly one `free` per tracked allocation of `T`, in list
order, and no other effect; it leaves trash equal to the former `A` and active
empty; and it returns the string literal ESC `[0m`, which is in neither list
afterwards (the lists are `[]` and `A`).  When the tracked buffers are
pairwise distinct, every buffer of `T` is freed exactly once and no buffer of
`A` is freed. -/
theorem gc_reset_spec (s : State) :
    (gc_reset s).1 = "\x1b[0m".toList ∧
    (gc_reset s).2.g_list_active = [] ∧
    (gc_reset s).2.g_list_trash = s.g_list_active ∧
    new_events s (gc_reset s).2 = s.g_list_trash.map Event.free ∧
    freed (new_events s (gc_reset s).2) = s.g_list_trash ∧
    ((s.g_list_active ++ s.g_list_trash).Nodup →
      (∀ p ∈ s.g_list_trash, (freed (new_events s (gc_reset s).2)).count p = 1) ∧
      (∀ p ∈ s.g_list_active, p ∉ freed (new_events s (gc_reset s).2))) := by
  have hev : new_events s (gc_reset s).2 = s.g_list_trash.map Event.free :=
    new_events_eq (by simp [gc_reset_eq])
  refine ⟨by simp [gc_reset_eq], by simp [gc_reset_eq], by simp [gc_reset_eq], hev, ?_, ?_⟩
  · rw [hev, freed_map_free]
  · intro hnd
    rw [hev, freed_map_free]
    rw [List.nodup_append] at hnd
    obtain ⟨_, hT, hdis⟩ := hnd
    exact ⟨fun p hp => List.count_eq_one_of_mem hT hp, fun p hp hpT => hdis hp hpT⟩

/-- Witness for C3 on a state with active `[3, 4]` and trash `[1, 2]`. -/
theorem gc_reset_spec_witness :
    (∀ p ∈ [1, 2], (freed (new_events
        { State.startup with g_list_active := [3, 4], g_list_trash := [1, 2] }
        (gc_reset { State.startup with g_list_active := [3, 4],
                                       g_list_trash := [1, 2] }).2)).count p = 1) ∧
    (∀ p ∈ [3, 4], p ∉ freed (new_events
        { State.startup with g_list_active := [3, 4], g_list_trash := [1, 2] }
        (gc_reset { State.startup with g_list_active := [3, 4],
                                       g_list_trash := [1, 2] }).2)) :=
  (gc_reset_spec { State.startup with g_list_active := [3, 4],
                                      g_list_trash := [1, 2] }).2.2.2.2.2 (by decide)

/-! ## C4: full release -/

/-- C4. For every tracker state, `gc_clean_all` performs exactly one `free`
per tracked allocation of active and of trash and no other effect, and leaves
both lists empty (so, when the tracked buffers are pairwise distinct, every
tracked buffer is freed exactly once).  It is idempotent: on a state whose two
lists are empty it changes nothing and frees nothing, and calling it twice in
a row yields the same state as calling it once. -/
theorem gc_clean_all_spec (s : State) :
    (gc_clean_all s).g_list_active = [] ∧
    (gc_clean_all s).g_list_trash = [] ∧
    new_events s (gc_clean_all s) = (s.g_list_active ++ s.g_list_trash).map Event.free ∧
    freed (new_events s (gc_clean_all s)) = s.g_list_active ++ s.g_list_trash ∧
    ((s.g_list_active ++ s.g_list_trash).Nodup →
      ∀ p ∈ s.g_list_active ++ s.g_list_trash,
        (freed (new_events s (gc_clean_all s))).count p = 1) ∧
    (s.g_list_active = [] → s.g_list_trash = [] →
      gc_clean_all s = s ∧ new_events s (gc_clean_all s) = []) ∧
    gc_clean_all (gc_clean_all s) = gc_clean_all s ∧
    new_events (gc_clean_all s) (gc_clean_all (gc_clean_all s)) = [] := by
  have hev : new_events s (gc_clean_all s)
      = (s.g_list_active ++ s.g_list_trash).map Event.free :=
    new_events_eq (by simp [gc_clean_all_eq])
  have hidem : ∀ t : State, t.g_list_active = [] → t.g_list_trash = [] →
      gc_clean_all t = t := by
    intro t ha ht
    rw [gc_clean_all_eq]
    cases t
    simp_all
  have h2 : gc_clean_all (gc_clean_all s) = gc_clean_all s :=
    hidem _ (by simp [gc_clean_all_eq]) (by simp [gc_clean_all_eq])
  refine ⟨by simp [gc_clean_all_eq], by simp [gc_clean_all_eq], hev, ?_, ?_, ?_, h2, ?_⟩
  · rw [hev, freed_map_free]
  · intro hnd p hp
    rw [hev, freed_map_free]
    exact List.count_eq_one_of_mem hnd hp
  · intro ha ht
    refine ⟨hidem s ha ht, ?_⟩
    rw [hev, ha, ht]
    rfl
  · rw [h2]
    simp [new_events]

/-- Witness for C4 on a state with active `[3, 4]` and trash `[1, 2]`, and on the
start-up state, whose lists are empty. -/
theorem gc_clean_all_spec_witness :
    (∀ p ∈ [3, 4] ++ [1, 2], (freed (new_events
        { State.startup with g_list_active := [3, 4], g_list_trash := [1, 2] }
        (gc_clean_all { State.startup with g_list_active := [3, 4],
                                           g_list_trash := [1, 2] }))).count p = 1) ∧
    (gc_clean_all State.startup = State.startup ∧
      new_events State.startup (gc_clean_all State.startup) = []) :=
  ⟨(gc_clean_all_spec { State.startup with g_list_active := [3, 4],
                                           g_list_trash := [1, 2] }).2.2.2.2.1 (by decide),
   (gc_clean_all_spec State.startup).2.2.2.2.2.1 rfl rfl⟩

/-! ## C5: two soft resets in a row -/

/-- C5. For every tracker state whose tracked buffers are pairwise distinct,
two calls of `gc_reset` in a row (no `gc_add` in between) leave active and
trash empty, and over the two calls every buffer that was tracked is freed
exactly once and no buffer is freed twice. -/
theorem gc_reset_twice (s : State)
    (hdistinct : (s.g_list_active ++ s.g_list_trash).Nodup) :
    (gc_reset (gc_reset s).2).2.g_list_active = [] ∧
    (gc_reset (gc_reset s).2).2.g_list_trash = [] ∧
    freed (new_events s (gc_reset (gc_reset s).2).2) = s.g_list_trash ++ s.g_list_active ∧
    (∀ p ∈ s.g_list_active ++ s.g_list_trash,
      (freed (new_events s (gc_reset (gc_reset s).2).2)).count p = 1) ∧
    (∀ p, (freed (new_events s (gc_reset (gc_reset s).2).2)).count p ≤ 1) := by
  have hev : new_events s (gc_reset (gc_reset s).2).2
      = (s.g_list_trash ++ s.g_list_active).map Event.free :=
    new_events_eq (by simp [gc_reset_eq])
  have hnd : (s.g_list_trash ++ s.g_list_active).Nodup :=
    (List.perm_append_comm.nodup_iff).1 hdistinct
  refine ⟨by simp [gc_reset_eq], by simp [gc_reset_eq], ?_, ?_, ?_⟩
  · rw [hev, freed_map_free]
  · intro p hp
    rw [hev, freed_map_free]
    exact List.count_eq_one_of_mem hnd (by simpa [or_comm] using hp)
  · intro p
    rw [hev, freed_map_free]
    exact List.nodup_iff_count_le_one.1 hnd p

/-- Witness for C5 on a state with active `[3, 4]` and trash `[1, 2]`. -/
theorem gc_reset_twice_witness :
    ([3, 4] ++ [1, 2] : List Ptr).Nodup ∧
    freed (new_events
        { State.startup with g_list_active := [3, 4], g_list_trash := [1, 2] }
        (gc_reset (gc_reset { State.startup with g_list_active := [3, 4],
                                                 g_list_trash := [1, 2] }).2).2)
      = [1, 2] ++ [3, 4] :=
  ⟨by decide,
   (gc_reset_twice { State.startup with g_list_active := [3, 4], g_list_trash := [1, 2] }
      (by decide)).2.2.1⟩

/-! ## C6: failure of the node allocation inside a generator -/

theorem load_free_self (p : Ptr) (s : State) : load p (free p s) = none := by
  simp [load, free]

/-- When the buffer is allocated but the node allocation inside `gc_add`
fails, `gc_asprintf`, `gc_asprintf2` and `gc_asprintf3` still return the
buffer, although `gc_add` has freed it. -/
theorem gc_asprintf_node_failure (format : List Char) (a1 a2 a3 : Int) (p : Ptr) (s : State) :
    ((gc_asprintf format a1 (some p) false s).1 = some p ∧
      new_events s (gc_asprintf format a1 (some p) false s).2 = [Event.free p] ∧
      load p (gc_asprintf format a1 (some p) false s).2 = none) ∧
    ((gc_asprintf2 format a1 a2 (some p) false s).1 = some p ∧
      new_events s (gc_asprintf2 format a1 a2 (some p) false s).2 = [Event.free p] ∧
      load p (gc_asprintf2 format a1 a2 (some p) false s).2 = none) ∧
    ((gc_asprintf3 format a1 a2 a3 (some p) false s).1 = some p ∧
      new_events s (gc_asprintf3 format a1 a2 a3 (some p) false s).2 = [Event.free p] ∧
      load p (gc_asprintf3 format a1 a2 a3 (some p) false s).2 = none) := by
  refine ⟨⟨rfl, new_events_eq ?_, ?_⟩, ⟨rfl, new_events_eq ?_, ?_⟩,
    ⟨rfl, new_events_eq ?_, ?_⟩⟩
  · simp [gc_asprintf, gc_add, free, store]
  · exact load_free_self p _
  · simp [gc_asprintf2, gc_add, free, store]
  · exact load_free_self p _
  · simp [gc_asprintf3, gc_add, free, store]
  · exact load_free_self p _

/-- C6 (the code departs from the claim). `cursor_cuu(1)` at start-up, with
the buffer allocated at address 7 and the node allocation failing: the call
returns the pointer 7, not NULL, although `gc_add` has freed that buffer (the
only effect of the call is `free(7)`, the buffer's content is gone, and
nothing is tracked). -/
theorem cursor_cuu_node_failure_returns_freed :
    (cursor_cuu 1 (some 7) false State.startup).1 = some 7 ∧
    (cursor_cuu 1 (some 7) false State.startup).1 ≠ none ∧
    new_events State.startup (cursor_cuu 1 (some 7) false State.startup).2 = [Event.free 7] ∧
    load 7 (cursor_cuu 1 (some 7) false State.startup).2 = none ∧
    (cursor_cuu 1 (some 7) false State.startup).2.g_list_active = [] ∧
    (cursor_cuu 1 (some 7) false State.startup).2.g_list_trash = [] := by
  decide

/-! ## C7: registration -/

/-- C7. For every tracker state and non-null buffer `p`: when the node
allocation of `gc_add` fails, `p` is freed exactly once (the only effect) and
both lists are unchanged; when it succeeds, nothing is freed, active becomes
`p` prepended to the former active, and trash is unchanged. -/
theorem gc_add_spec (s : State) (p : Ptr) :
    (new_events s (gc_add (some p) false s) = [Event.free p] ∧
      (freed (new_events s (gc_add (some p) false s))).count p = 1 ∧
      (gc_add (some p) false s).g_list_active = s.g_list_active ∧
      (gc_add (some p) false s).g_list_trash = s.g_list_trash) ∧
    (new_events s (gc_add (some p) true s) = [] ∧
      (gc_add (some p) true s).g_list_active = p :: s.g_list_active ∧
      (gc_add (some p) true s).g_list_trash = s.g_list_trash ∧
      load p (gc_add (some p) true s) = load p s) := by
  have h1 : new_events s (gc_add (some p) false s) = [Event.free p] :=
    new_events_eq (by simp [gc_add, free])
  refine ⟨⟨h1, ?_, by simp [gc_add, free], by simp [gc_add, free]⟩,
    ⟨new_events_eq (by simp [gc_add]), by simp [gc_add], by simp [gc_add],
      by simp [gc_add, load]⟩⟩
  rw [h1]
  simp [freed]

/-! ## Normal exit: registrations and the order of the calls -/

theorem init_function_frame (f : InitFunction) (s : State) :
    (f.call s).without_tables = s.without_tables := by
  cases f <;>
    simp [InitFunction.call, init_fore, init_back, init_style, init_disable, init_default,
      init_font, init_misc, init_cursor, init_screen, init_all, State.without_tables]

theorem init_color_loop_frame (o_flags : Int) (s : State) :
    (init_color_loop o_flags s).without_tables = s.without_tables := by
  unfold init_color_loop
  generalize init_map = m
  induction m generalizing s with
  | nil => rfl
  | cons entry m ih =>
    rw [List.foldl_cons, ih]
    split
    · exact init_function_frame _ _
    · rfl

theorem sigaction_frame (sig : Int) (s : State) :
    (sigaction sig s).without_handlers = s.without_handlers := by
  unfold sigaction
  split <;> rfl

theorem setup_signals_frame (s : State) :
    (setup_signals s).without_handlers = s.without_handlers := by
  unfold setup_signals
  generalize SIGNALS_TO_HANDLE = l
  induction l generalizing s with
  | nil => rfl
  | cons sig l ih => rw [List.foldl_cons, ih, sigaction_frame]

/-- The registrations `init_color` leaves behind: with auto-clean requested,
`gc_clean_all` then `auto_clean` are added to those already present;
otherwise the registrations are unchanged. -/
theorem init_color_atexit_fns (e : Option (List Char)) (cs ac sig : Nat) (flags : Int)
    (s : State) :
    (init_color e cs ac sig flags s).atexit_fns =
      if ac ≠ 0 then ExitFn.auto_clean :: ExitFn.gc_clean_all :: s.atexit_fns
      else s.atexit_fns := by
  have h1 := fun t => congrArg State.atexit_fns (init_color_loop_frame flags t)
  have h2 := fun t => congrArg State.atexit_fns (setup_signals_frame t)
  simp only [State.without_tables, State.without_handlers] at h1 h2
  by_cases hsig : sig = 0 <;> by_cases hac : ac = 0 <;>
    simp [init_color, hsig, hac, atexit, h1, h2]

theorem vformat_s (text : List Char) : vformat "%s".toList [Arg.str text] = text := by
  simp [vformat]

/-- The effects of `auto_clean`, in order. -/
theorem auto_clean_trace (s : State) :
    (auto_clean s).trace = s.trace ++
      ([Event.stdout s.g_ansi_esc_char, Event.stdout "[0m".toList]
        ++ (s.g_list_active ++ s.g_list_trash).map Event.free
        ++ (if s.g_cursor_auto_show ≠ 0 then
              [Event.stdout s.g_ansi_esc_char, Event.stdout "[?25h".toList]
            else [])) ∧
    (auto_clean s).g_list_active = [] ∧ (auto_clean s).g_list_trash = [] := by
  have hv0 : vformat "[0m".toList [] = "[0m".toList := by simp [vformat]
  have hv1 : vformat "[?25h".toList [] = "[?25h".toList := by simp [vformat]
  unfold auto_clean
  simp only [gc_clean_all_eq, printf, get_cursor_auto_show, get_ansi_esc_char, vformat_s, hv0, hv1]
  split <;> simp

/-- C9, as the code has it. For every signal number `sig` and every state,
`handle_signal(sig)` performs a single effect, the write of the 5 bytes
ESC `[0m` newline to the error stream: nothing goes to standard output and
nothing is freed.  Both tracker lists, the heap and the registered exit
actions are untouched, and the process is terminated with status `128 + sig`. -/
theorem handle_signal_spec (sig : Int) (s : State) :
    new_events s (handle_signal sig s) = [Event.stderr "\x1b[0m\n".toList] ∧
    stderr_text (new_events s (handle_signal sig s)) = "\x1b[0m\n".toList ∧
    stdout_text (new_events s (handle_signal sig s)) = [] ∧
    freed (new_events s (handle_signal sig s)) = [] ∧
    (handle_signal sig s).g_list_active = s.g_list_active ∧
    (handle_signal sig s).g_list_trash = s.g_list_trash ∧
    (handle_signal sig s).heap = s.heap ∧
    (handle_signal sig s).atexit_fns = s.atexit_fns ∧
    (handle_signal sig s).exit_status = some (128 + sig) := by
  have hev : new_events s (handle_signal sig s) = [Event.stderr "\x1b[0m\n".toList] :=
    new_events_eq (by simp [handle_signal])
  refine ⟨hev, ?_, ?_, ?_, rfl, rfl, rfl, rfl, rfl⟩ <;> rw [hev] <;> rfl

/-- C9 fails as stated: for SIGINT (2) at start-up the handler sends 5 bytes
to the error stream, the reset sequence and a newline, not the 4 bytes of the
reset sequence alone. -/
theorem handle_signal_writes_newline :
    stderr_text (new_events State.startup (handle_signal 2 State.startup))
      = "\x1b[0m\n".toList ∧
    stderr_text (new_events State.startup (handle_signal 2 State.startup))
      ≠ "\x1b[0m".toList ∧
    (stderr_text (new_events State.startup (handle_signal 2 State.startup))).length = 5 := by
  decide

/-! ## C10: which tables `init_color` populates -/

/-- C10 (the code departs from the claim). The automatic start-up
initialisation passes only `COLOR_FLAG_INIT_DEFAULT`, yet the functions
called by the loop of `init_color` are `init_default` and `init_all`, because
`COLOR_FLAG_INIT_DEFAULT & COLOR_FLAG_INIT_ALL` is non-zero: afterwards not
only the Default table but every table is populated (shown here by the first
entry of each, all blank at start-up), and `Style.RESET_ALL` is set. -/
theorem auto_init_populates_every_table :
    Int.land COLOR_FLAG_INIT_DEFAULT COLOR_FLAG_INIT_ALL ≠ 0 ∧
    Int.land COLOR_FLAG_INIT_DEFAULT COLOR_FLAG_INIT_FORE = 0 ∧
    State.startup.Fore.head? = some (some []) ∧
    (auto_init State.startup).Default.head? = some (some "\x1b[10m".toList) ∧
    (auto_init State.startup).Fore.head? = some (some "\x1b[30m".toList) ∧
    (auto_init State.startup).Back.head? = some (some "\x1b[40m".toList) ∧
    (auto_init State.startup).Style.head? = some (some "\x1b[0m".toList) ∧
    (auto_init State.startup).Style_RESET_ALL = some StyleFn.gc_reset ∧
    (auto_init State.startup).Disable.head? = some (some "\x1b[21m".toList) ∧
    (auto_init State.startup).Font.head? = some (some "\x1b[11m".toList) ∧
    (auto_init State.startup).Misc.head? = some (some "\x1b[26m".toList) ∧
    (auto_init State.startup).Cursor.head? = some (some "\x1b[H".toList) ∧
    (auto_init State.startup).Screen.head? = some (some "\x1b[2J".toList) := by
  decide

/-! ## Generator calls in closed form -/

/-- A generator call whose arguments are in range and whose buffer is
allocated writes the escape string followed by the expected body into the
buffer, hands the buffer to `gc_add` and returns it. -/
theorem generator_call_ok (g : Generator) (p : Ptr) (node : Bool) (s : State)
    (h : g.inRange) :
    g.call (some p) node s
      = (some p, gc_add (some p) node (store p (s.g_ansi_esc_char ++ g.body) s)) := by
  cases g <;>
    simp only [Generator.inRange] at h <;>
    simp [Generator.call, Generator.body, custom_code, cursor_cup, cursor_cuu, cursor_cud,
      cursor_cuf, cursor_cub, fore_color8, back_color8, underline_color8, fore_color24,
      back_color24, underline_color24, gc_asprintf, gc_asprintf2, gc_asprintf3, snprintf_fit,
      vformat, itoa_natCast, get_ansi_esc_char, h]

/-- A generator call whose arguments are out of range returns NULL and leaves
the state as it was, whatever the allocator would have answered. -/
theorem generator_call_reject (g : Generator) (str : Option Ptr) (node : Bool) (s : State)
    (h : ¬ g.inRange) : g.call str node s = (none, s) := by
  cases g <;> simp only [Generator.inRange, not_true_eq_false] at h <;>
    simp only [Generator.call, cursor_cup, cursor_cuu, cursor_cud, cursor_cuf, cursor_cub]
  · by_cases hr : 1 ≤ ‹ℕ› ∧ ‹ℕ› ≤ 999 <;> simp_all
  all_goals simp [h]

/-! ## Configuration set by `init_color` -/

/-- What `init_color` does to the configuration and what it leaves alone. -/
theorem init_color_config (e : Option (List Char)) (cs ac sig : Nat) (flags : Int)
    (s : State) :
    (init_color e cs ac sig flags s).g_ansi_esc_char = e.getD "\x1b".toList ∧
    (init_color e cs ac sig flags s).g_cursor_auto_show = cs ∧
    (init_color e cs ac sig flags s).g_auto_clean = ac ∧
    (init_color e cs ac sig flags s).g_list_active = s.g_list_active ∧
    (init_color e cs ac sig flags s).g_list_trash = s.g_list_trash ∧
    (init_color e cs ac sig flags s).trace = s.trace ∧
    (init_color e cs ac sig flags s).heap = s.heap := by
  have h1 := fun t => congrArg State.g_ansi_esc_char (init_color_loop_frame flags t)
  have h2 := fun t => congrArg State.g_ansi_esc_char (setup_signals_frame t)
  have h3 := fun t => congrArg State.g_cursor_auto_show (init_color_loop_frame flags t)
  have h4 := fun t => congrArg State.g_cursor_auto_show (setup_signals_frame t)
  have h5 := fun t => congrArg State.g_auto_clean (init_color_loop_frame flags t)
  have h6 := fun t => congrArg State.g_auto_clean (setup_signals_frame t)
  have h7 := fun t => congrArg State.g_list_active (init_color_loop_frame flags t)
  have h8 := fun t => congrArg State.g_list_active (setup_signals_frame t)
  have h9 := fun t => congrArg State.g_list_trash (init_color_loop_frame flags t)
  have h10 := fun t => congrArg State.g_list_trash (setup_signals_frame t)
  have h11 := fun t => congrArg State.trace (init_color_loop_frame flags t)
  have h12 := fun t => congrArg State.trace (setup_signals_frame t)
  have h13 := fun t => congrArg State.heap (init_color_loop_frame flags t)
  have h14 := fun t => congrArg State.heap (setup_signals_frame t)
  simp only [State.without_tables, State.without_handlers] at h1 h2 h3 h4 h5 h6 h7
  simp only [State.without_tables, State.without_handlers] at h8 h9 h10 h11 h12 h13 h14
  cases e <;> by_cases hsig : sig = 0 <;> by_cases hac : ac = 0 <;>
    simp [init_color, hsig, hac, atexit, h1, h2, h3, h4, h5, h6, h7, h8, h9, h10, h11, h12,
      h13, h14]

/-! ## C11: repeated initialisation -/

/-- C11, as the code has it. Every call of `init_color` with auto-clean
enabled registers `gc_clean_all` and `auto_clean` once more, on top of the
exit actions already registered.  After two such calls starting without
registrations (the automatic start-up initialisation and one explicit call,
or two explicit calls), the registered actions are `auto_clean`,
`gc_clean_all`, `auto_clean`, `gc_clean_all`, and normal exit from any later
state `t` with these registrations emits the reset sequence twice (and the
show-cursor sequence twice, if enabled), while each tracked allocation is
freed once only: the second round finds both lists empty. -/
theorem init_color_twice_registers_twice
    (e1 e2 : Option (List Char)) (cs1 ac1 sig1 cs2 ac2 sig2 : Nat) (flags1 flags2 : Int)
    (s t : State) (hac1 : ac1 ≠ 0) (hac2 : ac2 ≠ 0) (hnone : s.atexit_fns = [])
    (ht : t.atexit_fns
      = (init_color e2 cs2 ac2 sig2 flags2 (init_color e1 cs1 ac1 sig1 flags1 s)).atexit_fns) :
    (init_color e2 cs2 ac2 sig2 flags2 (init_color e1 cs1 ac1 sig1 flags1 s)).atexit_fns
      = ExitFn.auto_clean :: ExitFn.gc_clean_all ::
          (init_color e1 cs1 ac1 sig1 flags1 s).atexit_fns ∧
    t.atexit_fns = [ExitFn.auto_clean, ExitFn.gc_clean_all,
                    ExitFn.auto_clean, ExitFn.gc_clean_all] ∧
    new_events t (run_atexit t) =
      [Event.stdout t.g_ansi_esc_char, Event.stdout "[0m".toList]
        ++ (t.g_list_active ++ t.g_list_trash).map Event.free
        ++ (if t.g_cursor_auto_show ≠ 0 then
              [Event.stdout t.g_ansi_esc_char, Event.stdout "[?25h".toList]
            else [])
        ++ [Event.stdout t.g_ansi_esc_char, Event.stdout "[0m".toList]
        ++ (if t.g_cursor_auto_show ≠ 0 then
              [Event.stdout t.g_ansi_esc_char, Event.stdout "[?25h".toList]
            else []) ∧
    freed (new_events t (run_atexit t)) = t.g_list_active ++ t.g_list_trash := by
  have h2 : (init_color e2 cs2 ac2 sig2 flags2
      (init_color e1 cs1 ac1 sig1 flags1 s)).atexit_fns
      = ExitFn.auto_clean :: ExitFn.gc_clean_all ::
          (init_color e1 cs1 ac1 sig1 flags1 s).atexit_fns := by
    rw [init_color_atexit_fns, if_pos hac2]
  have hfns : t.atexit_fns = [ExitFn.auto_clean, ExitFn.gc_clean_all,
      ExitFn.auto_clean, ExitFn.gc_clean_all] := by
    rw [ht, h2, init_color_atexit_fns, if_pos hac1, hnone]
  have hrun : run_atexit t
      = { gc_clean_all (auto_clean (gc_clean_all (auto_clean t))) with atexit_fns := [] } := by
    simp [run_atexit, hfns, ExitFn.call]
  -- first round
  obtain ⟨htr1, hA1, hT1⟩ := auto_clean_trace t
  have hcfg1 : (auto_clean t).g_ansi_esc_char = t.g_ansi_esc_char ∧
      (auto_clean t).g_cursor_auto_show = t.g_cursor_auto_show := by
    unfold auto_clean
    simp only [gc_clean_all_eq, printf, get_cursor_auto_show]
    split <;> simp
  -- second round, on the state left by the first
  obtain ⟨htr2, hA2, hT2⟩ := auto_clean_trace (gc_clean_all (auto_clean t))
  have hmid : (gc_clean_all (auto_clean t)).trace = (auto_clean t).trace ∧
      (gc_clean_all (auto_clean t)).g_list_active = [] ∧
      (gc_clean_all (auto_clean t)).g_list_trash = [] ∧
      (gc_clean_all (auto_clean t)).g_ansi_esc_char = t.g_ansi_esc_char ∧
      (gc_clean_all (auto_clean t)).g_cursor_auto_show = t.g_cursor_auto_show := by
    rw [gc_clean_all_eq]
    simp [hA1, hT1, hcfg1.1, hcfg1.2]
  obtain ⟨hm1, hm2, hm3, hm4, hm5⟩ := hmid
  rw [hm1, hm2, hm3, hm4, hm5, htr1] at htr2
  have htrace : (run_atexit t).trace = t.trace ++
      ([Event.stdout t.g_ansi_esc_char, Event.stdout "[0m".toList]
        ++ (t.g_list_active ++ t.g_list_trash).map Event.free
        ++ (if t.g_cursor_auto_show ≠ 0 then
              [Event.stdout t.g_ansi_esc_char, Event.stdout "[?25h".toList]
            else [])
        ++ [Event.stdout t.g_ansi_esc_char, Event.stdout "[0m".toList]
        ++ (if t.g_cursor_auto_show ≠ 0 then
              [Event.stdout t.g_ansi_esc_char, Event.stdout "[?25h".toList]
            else [])) := by
    rw [hrun]
    simp only [gc_clean_all_eq (auto_clean (gc_clean_all (auto_clean t))), hA2, hT2, htr2]
    simp
  refine ⟨h2, hfns, new_events_eq htrace, ?_⟩
  rw [new_events_eq htrace]
  simp only [freed_append, freed_map_free]
  split <;> simp [freed]

/-- Witness for C11: the automatic start-up initialisation, a second
`init_color` with auto-clean enabled, one generator call whose buffer is 7,
then normal exit. -/
theorem init_color_twice_registers_twice_witness :
    ((1 : Nat) ≠ 0 ∧ State.startup.atexit_fns = []) ∧
    new_events
        (cursor_cuu 3 (some 7) true
          (init_color none 1 1 0 COLOR_FLAG_NONE (auto_init State.startup))).2
        (run_atexit (cursor_cuu 3 (some 7) true
          (init_color none 1 1 0 COLOR_FLAG_NONE (auto_init State.startup))).2)
      = [Event.stdout "\x1b".toList, Event.stdout "[0m".toList, Event.free 7,
         Event.stdout "\x1b".toList, Event.stdout "[?25h".toList,
         Event.stdout "\x1b".toList, Event.stdout "[0m".toList,
         Event.stdout "\x1b".toList, Event.stdout "[?25h".toList] :=
  ⟨by decide,
   (init_color_twice_registers_twice none none 1 1 1 1 1 0 COLOR_FLAG_INIT_DEFAULT
      COLOR_FLAG_NONE State.startup
      (cursor_cuu 3 (some 7) true
        (init_color none 1 1 0 COLOR_FLAG_NONE (auto_init State.startup))).2
      (by decide) (by decide) rfl (by decide)).2.2.1⟩

/-- C11 fails as stated: after the automatic start-up initialisation, a
second `init_color` with auto-clean enabled leaves four registered exit
actions instead of the two left by one call, and at normal exit the reset
sequence is written twice. -/
theorem second_init_color_duplicates_teardown :
    (auto_init State.startup).atexit_fns = [ExitFn.auto_clean, ExitFn.gc_clean_all] ∧
    (init_color none 1 1 0 COLOR_FLAG_NONE (auto_init State.startup)).atexit_fns
      = [ExitFn.auto_clean, ExitFn.gc_clean_all, ExitFn.auto_clean, ExitFn.gc_clean_all] ∧
    (init_color none 1 1 0 COLOR_FLAG_NONE (auto_init State.startup)).atexit_fns
      ≠ (auto_init State.startup).atexit_fns ∧
    stdout_text (new_events
        (init_color none 1 1 0 COLOR_FLAG_NONE (auto_init State.startup))
        (run_atexit (init_color none 1 1 0 COLOR_FLAG_NONE (auto_init State.startup))))
      = "\x1b[0m\x1b[?25h\x1b[0m\x1b[?25h".toList := by
  decide

theorem stdout_text_append (xs ys : List Event) :
    stdout_text (xs ++ ys) = stdout_text xs ++ stdout_text ys := by
  induction xs with
  | nil => rfl
  | cons e xs ih => cases e <;> simp [stdout_text, ih]

theorem stderr_text_append (xs ys : List Event) :
    stderr_text (xs ++ ys) = stderr_text xs ++ stderr_text ys := by
  induction xs with
  | nil => rfl
  | cons e xs ih => cases e <;> simp [stderr_text, ih]

theorem stdout_text_map_free (l : List Ptr) : stdout_text (l.map Event.free) = [] := by
  induction l with
  | nil => rfl
  | cons p l ih => simpa [stdout_text] using ih

theorem stderr_text_map_free (l : List Ptr) : stderr_text (l.map Event.free) = [] := by
  induction l with
  | nil => rfl
  | cons p l ih => simpa [stderr_text] using ih

/-! ## C12: the normal-exit restoration routine -/

/-- C12. For every configuration and tracker state, `auto_clean` sends to
standard output the configured escape string followed by `[0m`, then, exactly
when the cursor auto-show flag is non-zero, the configured escape string
followed by `[?25h`, and nothing else (nothing goes to the error stream); it
leaves both tracker lists empty and performs one `free` per previously
tracked allocation, after the reset and before the show-cursor sequence, so
that every tracked buffer is freed exactly once when the tracked buffers are
pairwise distinct. -/
theorem auto_clean_spec (s : State) :
    new_events s (auto_clean s)
      = [Event.stdout s.g_ansi_esc_char, Event.stdout "[0m".toList]
          ++ (s.g_list_active ++ s.g_list_trash).map Event.free
          ++ (if s.g_cursor_auto_show ≠ 0 then
                [Event.stdout s.g_ansi_esc_char, Event.stdout "[?25h".toList]
              else []) ∧
    stdout_text (new_events s (auto_clean s))
      = s.g_ansi_esc_char ++ "[0m".toList
          ++ (if s.g_cursor_auto_show ≠ 0 then s.g_ansi_esc_char ++ "[?25h".toList else []) ∧
    stderr_text (new_events s (auto_clean s)) = [] ∧
    (auto_clean s).g_list_active = [] ∧
    (auto_clean s).g_list_trash = [] ∧
    freed (new_events s (auto_clean s)) = s.g_list_active ++ s.g_list_trash ∧
    ((s.g_list_active ++ s.g_list_trash).Nodup →
      ∀ p ∈ s.g_list_active ++ s.g_list_trash,
        (freed (new_events s (auto_clean s))).count p = 1) := by
  obtain ⟨htr, hA, hT⟩ := auto_clean_trace s
  have hfreed : freed (new_events s (auto_clean s)) = s.g_list_active ++ s.g_list_trash := by
    rw [new_events_eq htr]
    simp only [freed_append, freed_map_free]
    split <;> simp [freed]
  refine ⟨new_events_eq htr, ?_, ?_, hA, hT, hfreed, ?_⟩
  · rw [new_events_eq htr]
    simp only [stdout_text_append, stdout_text_map_free]
    split <;> simp [stdout_text]
  · rw [new_events_eq htr]
    simp only [stderr_text_append, stderr_text_map_free]
    split <;> simp [stderr_text]
  · intro hnd p hp
    rw [hfreed]
    exact List.count_eq_one_of_mem hnd hp

/-- Witness for C12 on a state with active `[3, 4]`, trash `[1, 2]`, the default
escape character and cursor auto-show on. -/
theorem auto_clean_spec_witness :
    stdout_text (new_events
        { State.startup with g_list_active := [3, 4], g_list_trash := [1, 2] }
        (auto_clean { State.startup with g_list_active := [3, 4], g_list_trash := [1, 2] }))
      = "\x1b[0m\x1b[?25h".toList ∧
    (∀ p ∈ [3, 4] ++ [1, 2], (freed (new_events
        { State.startup with g_list_active := [3, 4], g_list_trash := [1, 2] }
        (auto_clean { State.startup with g_list_active := [3, 4],
                                         g_list_trash := [1, 2] }))).count p = 1) :=
  ⟨(auto_clean_spec { State.startup with g_list_active := [3, 4],
                                         g_list_trash := [1, 2] }).2.1,
   (auto_clean_spec { State.startup with g_list_active := [3, 4],
                                         g_list_trash := [1, 2] }).2.2.2.2.2.2 (by decide)⟩

/-! ## C13: 24-bit colours -/

/-- C13. For all byte values `r`, `g`, `b`, with the default escape character
and the buffer allocated: `fore_color24`, `back_color24` and
`underline_color24` return the buffer (never NULL: there is no range check,
and the outcome of the node allocation does not change the result), and when
the node allocation succeeds too the buffer holds exactly ESC `[38;2;` dec(r)
`;` dec(g) `;` dec(b) `m`, with `48` and `58` in place of `38` for the
background and underline variants. -/
theorem color24_spec (r g b : Nat) (p : Ptr) (s : State)
    (_hr : r ≤ 255) (_hg : g ≤ 255) (_hb : b ≤ 255)
    (hesc : s.g_ansi_esc_char = "\x1b".toList) :
    ((∀ node, (fore_color24 r g b (some p) node s).1 = some p) ∧
      load p (fore_color24 r g b (some p) true s).2
        = some ("\x1b[38;2;".toList ++ dec r ++ ";".toList ++ dec g ++ ";".toList
            ++ dec b ++ "m".toList)) ∧
    ((∀ node, (back_color24 r g b (some p) node s).1 = some p) ∧
      load p (back_color24 r g b (some p) true s).2
        = some ("\x1b[48;2;".toList ++ dec r ++ ";".toList ++ dec g ++ ";".toList
            ++ dec b ++ "m".toList)) ∧
    ((∀ node, (underline_color24 r g b (some p) node s).1 = some p) ∧
      load p (underline_color24 r g b (some p) true s).2
        = some ("\x1b[58;2;".toList ++ dec r ++ ";".toList ++ dec g ++ ";".toList
            ++ dec b ++ "m".toList)) := by
  have h1 := fun node => generator_call_ok (Generator.fore_color24 r g b) p node s trivial
  have h2 := fun node => generator_call_ok (Generator.back_color24 r g b) p node s trivial
  have h3 := fun node => generator_call_ok (Generator.underline_color24 r g b) p node s trivial
  simp only [Generator.call, Generator.body, hesc] at h1 h2 h3
  refine ⟨⟨fun node => by rw [h1], ?_⟩, ⟨fun node => by rw [h2], ?_⟩,
    ⟨fun node => by rw [h3], ?_⟩⟩
  · rw [h1]; simp [gc_add, load, store]
  · rw [h2]; simp [gc_add, load, store]
  · rw [h3]; simp [gc_add, load, store]

/-- Witness for C13: `(255, 0, 0)` gives `ESC[38;2;255;0;0m`, which contains
`255;0;0`. -/
theorem color24_spec_witness :
    load 7 (fore_color24 255 0 0 (some 7) true State.startup).2
        = some ("\x1b[38;2;".toList ++ "255;0;0".toList ++ "m".toList) ∧
    load 7 (back_color24 255 0 0 (some 7) true State.startup).2
        = some "\x1b[48;2;255;0;0m".toList :=
  ⟨(color24_spec 255 0 0 7 State.startup (by decide) (by decide) (by decide) rfl).1.2,
   (color24_spec 255 0 0 7 State.startup (by decide) (by decide) (by decide) rfl).2.1.2⟩

/-! ## C14: relative cursor movement -/

/-- C14. For every 16-bit count `n`, with the default escape character and
both allocations succeeding: when `1 ≤ n ≤ 999`, `cursor_cuu`, `cursor_cud`,
`cursor_cuf` and `cursor_cub` return the buffer, which holds ESC `[` dec(n)
followed by `A`, `B`, `C`, `D` respectively; when `n = 0` or `n ≥ 1000`, each
of them returns NULL. -/
theorem cursor_move_spec (n : Nat) (p : Ptr) (s : State) (_hn : n < 65536)
    (hesc : s.g_ansi_esc_char = "\x1b".toList) :
    (1 ≤ n ∧ n ≤ 999 →
      ((cursor_cuu n (some p) true s).1 = some p ∧
        load p (cursor_cuu n (some p) true s).2
          = some ("\x1b[".toList ++ dec n ++ "A".toList)) ∧
      ((cursor_cud n (some p) true s).1 = some p ∧
        load p (cursor_cud n (some p) true s).2
          = some ("\x1b[".toList ++ dec n ++ "B".toList)) ∧
      ((cursor_cuf n (some p) true s).1 = some p ∧
        load p (cursor_cuf n (some p) true s).2
          = some ("\x1b[".toList ++ dec n ++ "C".toList)) ∧
      ((cursor_cub n (some p) true s).1 = some p ∧
        load p (cursor_cub n (some p) true s).2
          = some ("\x1b[".toList ++ dec n ++ "D".toList))) ∧
    (n = 0 ∨ 1000 ≤ n →
      (cursor_cuu n (some p) true s).1 = none ∧ (cursor_cud n (some p) true s).1 = none ∧
      (cursor_cuf n (some p) true s).1 = none ∧ (cursor_cub n (some p) true s).1 = none) := by
  constructor
  · intro h
    have h1 := generator_call_ok (Generator.cursor_cuu n) p true s h
    have h2 := generator_call_ok (Generator.cursor_cud n) p true s h
    have h3 := generator_call_ok (Generator.cursor_cuf n) p true s h
    have h4 := generator_call_ok (Generator.cursor_cub n) p true s h
    simp only [Generator.call, Generator.body, hesc] at h1 h2 h3 h4
    rw [h1, h2, h3, h4]
    simp [gc_add, load, store]
  · intro h
    have hn : ¬ (1 ≤ n ∧ n ≤ 999) := by omega
    have h1 := generator_call_reject (Generator.cursor_cuu n) (some p) true s hn
    have h2 := generator_call_reject (Generator.cursor_cud n) (some p) true s hn
    have h3 := generator_call_reject (Generator.cursor_cuf n) (some p) true s hn
    have h4 := generator_call_reject (Generator.cursor_cub n) (some p) true s hn
    simp only [Generator.call] at h1 h2 h3 h4
    rw [h1, h2, h3, h4]
    exact ⟨rfl, rfl, rfl, rfl⟩

/-- Witness for C14: count 42 gives `ESC[42A` and `ESC[42D`; counts 0 and 1000
give NULL. -/
theorem cursor_move_spec_witness :
    (load 7 (cursor_cuu 42 (some 7) true State.startup).2 = some "\x1b[42A".toList ∧
      load 7 (cursor_cub 42 (some 7) true State.startup).2 = some "\x1b[42D".toList) ∧
    (cursor_cuu 0 (some 7) true State.startup).1 = none ∧
    (cursor_cuf 1000 (some 7) true State.startup).1 = none :=
  ⟨⟨((cursor_move_spec 42 7 State.startup (by decide) rfl).1 (by decide)).1.2,
    ((cursor_move_spec 42 7 State.startup (by decide) rfl).1 (by decide)).2.2.2.2⟩,
   ((cursor_move_spec 0 7 State.startup (by decide) rfl).2 (by decide)).1,
   ((cursor_move_spec 1000 7 State.startup (by decide) rfl).2 (by decide)).2.2.1⟩

/-! ## C15: rejection leaves no trace -/

/-- C15. For every state, every outcome the allocator could give and every
call of `cursor_cup` with a row or a column outside `[1,999]`, or of
`cursor_cuu`, `cursor_cud`, `cursor_cuf`, `cursor_cub` with a count outside
`[1,999]`: the call returns NULL and the state after it is the state before it
(no buffer written, no effect performed, active and trash as they were). -/
theorem rejection_is_atomic (row column n : Nat) (str : Option Ptr) (node : Bool)
    (s : State) :
    (¬ (1 ≤ row ∧ row ≤ 999) ∨ ¬ (1 ≤ column ∧ column ≤ 999) →
      cursor_cup row column str node s = (none, s) ∧
      new_events s (cursor_cup row column str node s).2 = [] ∧
      (cursor_cup row column str node s).2.heap = s.heap ∧
      (cursor_cup row column str node s).2.g_list_active = s.g_list_active ∧
      (cursor_cup row column str node s).2.g_list_trash = s.g_list_trash) ∧
    (¬ (1 ≤ n ∧ n ≤ 999) →
      (cursor_cuu n str node s = (none, s) ∧ cursor_cud n str node s = (none, s) ∧
        cursor_cuf n str node s = (none, s) ∧ cursor_cub n str node s = (none, s)) ∧
      (new_events s (cursor_cuu n str node s).2 = [] ∧
        new_events s (cursor_cud n str node s).2 = [] ∧
        new_events s (cursor_cuf n str node s).2 = [] ∧
        new_events s (cursor_cub n str node s).2 = [])) := by
  constructor
  · intro h
    have hr : ¬ (Generator.cursor_cup row column).inRange := by
      simp only [Generator.inRange]
      tauto
    have h1 := generator_call_reject (Generator.cursor_cup row column) str node s hr
    simp only [Generator.call] at h1
    rw [h1]
    exact ⟨rfl, by simp [new_events], rfl, rfl, rfl⟩
  · intro h
    have h1 := generator_call_reject (Generator.cursor_cuu n) str node s h
    have h2 := generator_call_reject (Generator.cursor_cud n) str node s h
    have h3 := generator_call_reject (Generator.cursor_cuf n) str node s h
    have h4 := generator_call_reject (Generator.cursor_cub n) str node s h
    simp only [Generator.call] at h1 h2 h3 h4
    rw [h1, h2, h3, h4]
    simp [new_events]

/-- Witness for C15: column 1000 and count 0 on a state that tracks buffers. -/
theorem rejection_is_atomic_witness :
    cursor_cup 5 1000 (some 7) true
        { State.startup with g_list_active := [3, 4], g_list_trash := [1, 2] }
      = (none, { State.startup with g_list_active := [3, 4], g_list_trash := [1, 2] }) ∧
    cursor_cud 0 (some 7) false
        { State.startup with g_list_active := [3, 4], g_list_trash := [1, 2] }
      = (none, { State.startup with g_list_active := [3, 4], g_list_trash := [1, 2] }) :=
  ⟨((rejection_is_atomic 5 1000 0 (some 7) true
      { State.startup with g_list_active := [3, 4], g_list_trash := [1, 2] }).1
      (Or.inr (by decide))).1,
   ((rejection_is_atomic 5 1000 0 (some 7) false
      { State.startup with g_list_active := [3, 4], g_list_trash := [1, 2] }).2
      (by decide)).1.2.1⟩

/-! ## C17: a successful generator call tracks one allocation -/

/-- C17. For every state and every generator call whose arguments are in range
and whose two allocations succeed: the call returns the buffer `p` it was
given, active afterwards is `p` prepended to the former active, trash is
unchanged, and the call performs no effect (nothing is freed). -/
theorem generator_tracks_one (g : Generator) (p : Ptr) (s : State) (hrange : g.inRange) :
    (g.call (some p) true s).1 = some p ∧
    (g.call (some p) true s).2.g_list_active = p :: s.g_list_active ∧
    (g.call (some p) true s).2.g_list_trash = s.g_list_trash ∧
    new_events s (g.call (some p) true s).2 = [] ∧
    freed (new_events s (g.call (some p) true s).2) = [] := by
  have hev : new_events s (g.call (some p) true s).2 = [] :=
    new_events_eq (by rw [generator_call_ok g p true s hrange]; simp [gc_add, store])
  rw [hev, generator_call_ok g p true s hrange]
  simp [gc_add, store, freed]

/-- Witness for C17: `fore_color8(200)` on a state that tracks buffers. -/
theorem generator_tracks_one_witness :
    (Generator.fore_color8 200).inRange ∧
    ((Generator.fore_color8 200).call (some 7) true
        { State.startup with g_list_active := [3, 4],
                             g_list_trash := [1, 2] }).2.g_list_active = 7 :: [3, 4] :=
  ⟨by decide,
   (generator_tracks_one (Generator.fore_color8 200) 7
      { State.startup with g_list_active := [3, 4], g_list_trash := [1, 2] }
      (by decide)).2.1⟩

/-! ## C18: overriding the escape string -/

/-- No generator call, registration, soft reset or full release changes the
escape string. -/
theorem op_step_esc (op : Op) (s : State) :
    (op.step s).g_ansi_esc_char = s.g_ansi_esc_char := by
  cases op with
  | generate g str node =>
    rcases generator_call_cases g str node s with hc | ⟨p, text, _, hc⟩
    · simp [Op.step, hc]
    · cases node <;> simp [Op.step, hc, gc_add, free, store]
  | gc_add ptr node =>
    cases ptr with
    | none => simp [Op.step, gc_add]
    | some p => cases node <;> simp [Op.step, gc_add, free]
  | gc_reset => simp [Op.step, gc_reset_eq]
  | gc_clean_all => simp [Op.step, gc_clean_all_eq]

/-- The escape string is the same after any sequence of generator calls,
registrations, soft resets and full releases. -/
theorem run_ops_esc (ops : List Op) (s : State) :
    (run_ops ops s).g_ansi_esc_char = s.g_ansi_esc_char := by
  induction ops generalizing s with
  | nil => rfl
  | cons op ops ih =>
    have hrun : run_ops (op :: ops) s = run_ops ops (op.step s) := by simp [run_ops]
    rw [hrun, ih, op_step_esc]

/-- C18. After `init_color` with a NULL escape argument, `get_ansi_esc_char`
returns the one-character string ESC; after `init_color` with a non-null
string `e` it returns `e`.  In both cases, after any sequence `ops` of
further generator calls (successful or not), registrations, soft resets and
full releases, `get_ansi_esc_char` still returns that string, and every
generator call whose arguments are in range and whose two allocations
succeed returns its buffer holding that string followed by the generator's
bracketed body. -/
theorem esc_char_override (o_esc : Option (List Char)) (cs ac sig : Nat) (flags : Int)
    (s : State) :
    (o_esc = none →
      get_ansi_esc_char (init_color o_esc cs ac sig flags s) = "\x1b".toList) ∧
    (∀ e, o_esc = some e →
      get_ansi_esc_char (init_color o_esc cs ac sig flags s) = e) ∧
    (∀ (ops : List Op) (g : Generator) (p : Ptr), g.inRange →
      get_ansi_esc_char (run_ops ops (init_color o_esc cs ac sig flags s))
        = o_esc.getD "\x1b".toList ∧
      (g.call (some p) true (run_ops ops (init_color o_esc cs ac sig flags s))).1 = some p ∧
      load p (g.call (some p) true (run_ops ops (init_color o_esc cs ac sig flags s))).2
        = some (o_esc.getD "\x1b".toList ++ g.body)) := by
  have hcfg := (init_color_config o_esc cs ac sig flags s).1
  refine ⟨?_, ?_, ?_⟩
  · intro h
    rw [get_ansi_esc_char, hcfg, h]
    rfl
  · intro e h
    rw [get_ansi_esc_char, hcfg, h]
    rfl
  · intro ops g p hg
    have hesc : (run_ops ops (init_color o_esc cs ac sig flags s)).g_ansi_esc_char
        = o_esc.getD "\x1b".toList := by
      rw [run_ops_esc, hcfg]
    refine ⟨hesc, ?_, ?_⟩
    · rw [generator_call_ok g p true _ hg]
    · rw [generator_call_ok g p true _ hg, hesc]
      simp [gc_add, load, store]

/-- Witness for C18: the escape string is set to `\e` (two characters,
backslash and `e`); then come a generator call, a soft reset, a generator
call whose node allocation fails, a rejected generator call, a registration
and a full release; `cursor_cuu(3)` called after all that gives `\e[3A`. -/
theorem esc_char_override_witness :
    get_ansi_esc_char (init_color (some "\\e".toList) 1 1 1 COLOR_FLAG_NONE State.startup)
      = "\\e".toList ∧
    (Generator.cursor_cuu 3).inRange ∧
    load 7 (cursor_cuu 3 (some 7) true
        (run_ops [Op.generate (Generator.fore_color8 200) (some 1) true, Op.gc_reset,
            Op.generate (Generator.cursor_cup 5 6) (some 2) false,
            Op.generate (Generator.cursor_cud 0) (some 3) true,
            Op.gc_add (some 4) true, Op.gc_clean_all]
          (init_color (some "\\e".toList) 1 1 1 COLOR_FLAG_NONE State.startup))).2
      = some ("\\e".toList ++ "[3A".toList) :=
  ⟨(esc_char_override (some "\\e".toList) 1 1 1 COLOR_FLAG_NONE State.startup).2.1 _ rfl,
   by decide,
   ((esc_char_override (some "\\e".toList) 1 1 1 COLOR_FLAG_NONE State.startup).2.2
      [Op.generate (Generator.fore_color8 200) (some 1) true, Op.gc_reset,
        Op.generate (Generator.cursor_cup 5 6) (some 2) false,
        Op.generate (Generator.cursor_cud 0) (some 3) true,
        Op.gc_add (some 4) true, Op.gc_clean_all]
      (Generator.cursor_cuu 3) 7 (by decide)).2.2⟩

/-! ## C19: the flag getters -/

/-- After `init_color`, the two getters return the bytes that were passed,
unchanged. -/
theorem getters_return_stored_byte (e : Option (List Char)) (cs ac sig : Nat) (flags : Int)
    (s : State) :
    get_cursor_auto_show (init_color e cs ac sig flags s) = cs ∧
    get_auto_clean (init_color e cs ac sig flags s) = ac := by
  have h := init_color_config e cs ac sig flags s
  exact ⟨h.2.1, h.2.2.1⟩

/-- C19 (the code departs from the claim). After `init_color(NULL, 2, 2, 0,
COLOR_FLAG_NONE)` at start-up, `get_cursor_auto_show()` and `get_auto_clean()`
both return 2, the byte that was passed, not 1. -/
theorem getters_return_two :
    get_cursor_auto_show (init_color none 2 2 0 COLOR_FLAG_NONE State.startup) = 2 ∧
    get_cursor_auto_show (init_color none 2 2 0 COLOR_FLAG_NONE State.startup) ≠ 1 ∧
    get_auto_clean (init_color none 2 2 0 COLOR_FLAG_NONE State.startup) = 2 ∧
    get_auto_clean (init_color none 2 2 0 COLOR_FLAG_NONE State.startup) ≠ 1 := by
  decide

/-! ## C20: the raw codes read by the table initialisers -/

/-- The table of raw codes has a string at every index below `nb`. -/
theorem raw_defined_iff (nb : Nat) (raw : List (Option (List Char))) :
    (∀ i, i < nb → ∃ code, raw.get? i = some (some code))
      ↔ (List.range nb).all (fun i => ((raw.get? i).join).isSome) = true := by
  simp only [List.all_eq_true, List.mem_range]
  constructor
  · intro h i hi
    obtain ⟨code, hc⟩ := h i hi
    rw [hc]
    rfl
  · intro h i hi
    have := h i hi
    cases hr : raw.get? i with
    | none =>
      rw [hr] at this
      exact absurd this (by decide)
    | some o =>
      cases o with
      | none =>
        rw [hr] at this
        exact absurd this (by decide)
      | some code => exact ⟨code, rfl⟩

/-- C20 (the code departs from the claim). `init_misc` iterates over
`NB_MISC = 17` indices, but `RAW_MISC_CODES` has initialisers for 15 only: the
entries at indices 15 and 16 are NULL, they are read by `init_misc` and
passed to `%s`, and the slots written from them are left indeterminate.  The
other eight initialisers read defined strings only. -/
theorem init_misc_reads_null :
    NB_MISC = 17 ∧
    RAW_MISC_CODES.get? 15 = some none ∧
    RAW_MISC_CODES.get? 16 = some none ∧
    (∀ i, i < 15 → ∃ code, RAW_MISC_CODES.get? i = some (some code)) ∧
    (init_misc State.startup).Misc.get? 15 = some none ∧
    (init_misc State.startup).Misc.get? 16 = some none ∧
    (auto_init State.startup).Misc.get? 16 = some none ∧
    (∀ i, i < NB_FORE_COLORS → ∃ code, RAW_FORE_CODES.get? i = some (some code)) ∧
    (∀ i, i < NB_BACK_COLORS → ∃ code, RAW_BACK_CODES.get? i = some (some code)) ∧
    (∀ i, i < NB_STYLE → ∃ code, RAW_STYLE_CODES.get? i = some (some code)) ∧
    (∀ i, i < NB_DISABLE → ∃ code, RAW_DISABLE_CODES.get? i = some (some code)) ∧
    (∀ i, i < NB_DEFAULT → ∃ code, RAW_DEFAULT_CODES.get? i = some (some code)) ∧
    (∀ i, i < NB_FONT → ∃ code, RAW_FONT_CODES.get? i = some (some code)) ∧
    (∀ i, i < NB_CURSOR → ∃ code, RAW_CURSOR_CODES.get? i = some (some code)) ∧
    (∀ i, i < NB_SCREEN → ∃ code, RAW_SCREEN_CODES.get? i = some (some code)) := by
  refine ⟨rfl, by decide, by decide, ?_, by decide, by decide, by decide,
    ?_, ?_, ?_, ?_, ?_, ?_, ?_, ?_⟩ <;>
    (rw [raw_defined_iff]; decide)

/-! ## C16: the ownership invariant -/

/-- One step preserves the ownership invariant: if the tracked buffers and
the buffers `F` freed so far are pairwise distinct and all among the
addresses `used` so far, and the step is handed only addresses not used
before, then the same holds after the step, with the buffers the step frees
added to `F`. -/
theorem ownership_step (op : Op) (s : State) (F used : List Ptr)
    (hinv : (s.g_list_active ++ s.g_list_trash ++ F).Nodup)
    (hsub : ∀ p ∈ s.g_list_active ++ s.g_list_trash ++ F, p ∈ used)
    (hnew : ∀ p ∈ op.buffers, p ∉ used) :
    ∃ evs, (op.step s).trace = s.trace ++ evs ∧
      ((op.step s).g_list_active ++ (op.step s).g_list_trash ++ (F ++ freed evs)).Nodup ∧
      ∀ p ∈ (op.step s).g_list_active ++ (op.step s).g_list_trash ++ (F ++ freed evs),
        p ∈ used ++ op.buffers := by
  have key : ∀ (p : Ptr) (node : Bool) (t : State), p ∉ used →
      t.g_list_active = s.g_list_active → t.g_list_trash = s.g_list_trash →
      t.trace = s.trace →
      ∃ evs, (gc_add (some p) node t).trace = s.trace ++ evs ∧
        ((gc_add (some p) node t).g_list_active ++ (gc_add (some p) node t).g_list_trash
          ++ (F ++ freed evs)).Nodup ∧
        ∀ q ∈ (gc_add (some p) node t).g_list_active
            ++ (gc_add (some p) node t).g_list_trash ++ (F ++ freed evs),
          q ∈ used ++ [p] := by
    intro p node t hp ha ht htr
    have hpn : p ∉ s.g_list_active ++ s.g_list_trash ++ F := fun h => hp (hsub p h)
    cases node with
    | true =>
      refine ⟨[], by simp [gc_add, htr], ?_, ?_⟩
      · simp only [gc_add, Bool.not_true, ha, ht, freed, List.append_nil]
        simpa using List.nodup_cons.2 ⟨hpn, hinv⟩
      · intro q hq
        simp only [gc_add, Bool.not_true, ha, ht, freed, List.append_nil] at hq
        have hq2 : q = p ∨ q ∈ s.g_list_active ++ s.g_list_trash ++ F := by
          simpa using hq
        rcases hq2 with rfl | hq2
        · simp
        · exact List.mem_append_left _ (hsub q hq2)
    | false =>
      refine ⟨[Event.free p], by simp [gc_add, free, htr], ?_, ?_⟩
      · simp only [gc_add, free, Bool.not_false, if_true, ha, ht, freed]
        have : (s.g_list_active ++ s.g_list_trash ++ F ++ [p]).Nodup :=
          List.nodup_append.2 ⟨hinv, List.nodup_singleton p,
            fun q hq hq2 => hpn (by rw [List.mem_singleton] at hq2; exact hq2 ▸ hq)⟩
        simpa [List.append_assoc] using this
      · intro q hq
        simp only [gc_add, free, Bool.not_false, if_true, ha, ht, freed] at hq
        rw [← List.append_assoc, List.mem_append] at hq
        rcases hq with hq | hq
        · exact List.mem_append_left _ (hsub q hq)
        · exact List.mem_append_right _ hq
  have same : ∃ evs, s.trace = s.trace ++ evs ∧
      (s.g_list_active ++ s.g_list_trash ++ (F ++ freed evs)).Nodup ∧
      ∀ p ∈ s.g_list_active ++ s.g_list_trash ++ (F ++ freed evs), p ∈ used :=
    ⟨[], by simp, by simpa [freed] using hinv, by simpa [freed] using hsub⟩
  cases op with
  | generate g str node =>
    rcases generator_call_cases g str node s with hc | ⟨p, text, hstr, hc⟩
    · obtain ⟨evs, h1, h2, h3⟩ := same
      exact ⟨evs, by simpa [Op.step, hc] using h1, by simpa [Op.step, hc] using h2,
        fun q hq => List.mem_append_left _ (h3 q (by simpa [Op.step, hc] using hq))⟩
    · subst hstr
      have hp : p ∉ used := hnew p (by simp [Op.buffers])
      simp only [Op.step, hc, Op.buffers]
      exact key p node (store p text s) hp rfl rfl rfl
  | gc_add ptr node =>
    cases ptr with
    | none =>
      obtain ⟨evs, h1, h2, h3⟩ := same
      exact ⟨evs, by simpa [Op.step, gc_add] using h1, by simpa [Op.step, gc_add] using h2,
        fun q hq => List.mem_append_left _ (h3 q (by simpa [Op.step, gc_add] using hq))⟩
    | some p =>
      have hp : p ∉ used := hnew p (by simp [Op.buffers])
      simp only [Op.step, Op.buffers]
      exact key p node s hp rfl rfl rfl
  | gc_reset =>
    refine ⟨s.g_list_trash.map Event.free, by simp [Op.step, gc_reset_eq], ?_, ?_⟩
    · simp only [Op.step, gc_reset_eq, freed_map_free, List.nil_append]
      have hperm : (s.g_list_active ++ (F ++ s.g_list_trash)).Perm
          (s.g_list_active ++ s.g_list_trash ++ F) := by
        rw [List.append_assoc]
        exact List.Perm.append_left _ List.perm_append_comm
      exact hperm.nodup_iff.2 hinv
    · intro q hq
      simp only [Op.step, gc_reset_eq, freed_map_free, List.nil_append] at hq
      refine List.mem_append_left _ (hsub q ?_)
      simp only [List.mem_append] at hq ⊢
      tauto
  | gc_clean_all =>
    refine ⟨(s.g_list_active ++ s.g_list_trash).map Event.free,
      by simp [Op.step, gc_clean_all_eq], ?_, ?_⟩
    · simp only [Op.step, gc_clean_all_eq, freed_map_free, List.nil_append]
      exact (List.perm_append_comm).nodup_iff.2 hinv
    · intro q hq
      simp only [Op.step, gc_clean_all_eq, freed_map_free, List.nil_append] at hq
      refine List.mem_append_left _ (hsub q ?_)
      simp only [List.mem_append] at hq ⊢
      tauto

theorem ownership_run (ops : List Op) (s : State) (F used : List Ptr)
    (hinv : (s.g_list_active ++ s.g_list_trash ++ F).Nodup)
    (hsub : ∀ p ∈ s.g_list_active ++ s.g_list_trash ++ F, p ∈ used)
    (hfresh : (buffers_of ops).Nodup) (hnew : ∀ p ∈ buffers_of ops, p ∉ used) :
    ∃ evs, (run_ops ops s).trace = s.trace ++ evs ∧
      ((run_ops ops s).g_list_active ++ (run_ops ops s).g_list_trash
        ++ (F ++ freed evs)).Nodup := by
  induction ops generalizing s F used with
  | nil => exact ⟨[], by simp [run_ops], by simpa [run_ops, freed] using hinv⟩
  | cons op ops ih =>
    simp only [buffers_of] at hfresh hnew
    obtain ⟨hfop, hfops, hdisj⟩ := List.nodup_append.1 hfresh
    obtain ⟨e1, htr1, hnd1, hsub1⟩ := ownership_step op s F used hinv hsub
      (fun p hp => hnew p (List.mem_append_left _ hp))
    obtain ⟨e2, htr2, hnd2⟩ := ih (op.step s) (F ++ freed e1) (used ++ op.buffers) hnd1 hsub1
      hfops (fun p hp hu => by
        rcases List.mem_append.1 hu with hu | hu
        · exact hnew p (List.mem_append_right _ hp) hu
        · exact hdisj hu hp)
    have hrun : run_ops (op :: ops) s = run_ops ops (op.step s) := by simp [run_ops]
    refine ⟨e1 ++ e2, ?_, ?_⟩
    · rw [hrun, htr2, htr1, List.append_assoc]
    · rw [hrun, freed_append, ← List.append_assoc F]
      exact hnd2

/-- C16. Start from a state whose two tracker lists are empty and run any
finite sequence of `gc_add`, generator calls, `gc_reset` and `gc_clean_all`
in which no buffer address is handed out twice (every registered buffer is
fresh).  Afterwards every tracked buffer occurs exactly once in active and
trash taken together, no tracked buffer has been freed since the start, and
no buffer has been freed more than once. -/
theorem ownership_invariant (s : State) (ops : List Op)
    (hactive : s.g_list_active = []) (htrash : s.g_list_trash = [])
    (hfresh : (buffers_of ops).Nodup) :
    ((run_ops ops s).g_list_active ++ (run_ops ops s).g_list_trash).Nodup ∧
    (∀ p ∈ (run_ops ops s).g_list_active ++ (run_ops ops s).g_list_trash,
      ((run_ops ops s).g_list_active ++ (run_ops ops s).g_list_trash).count p = 1) ∧
    (∀ p ∈ (run_ops ops s).g_list_active ++ (run_ops ops s).g_list_trash,
      p ∉ freed (new_events s (run_ops ops s))) ∧
    (freed (new_events s (run_ops ops s))).Nodup ∧
    (∀ p, (freed (new_events s (run_ops ops s))).count p ≤ 1) := by
  obtain ⟨evs, htr, hnd⟩ := ownership_run ops s [] [] (by simp [hactive, htrash])
    (by simp [hactive, htrash]) hfresh (by simp)
  rw [List.nil_append] at hnd
  obtain ⟨h1, h2, h3⟩ := List.nodup_append.1 hnd
  rw [new_events_eq htr]
  exact ⟨h1, fun p hp => List.count_eq_one_of_mem h1 hp, fun p hp hf => h3 hp hf, h2,
    fun p => List.nodup_iff_count_le_one.1 h2 p⟩

/-- Witness for C16: seven steps from the start-up state, with a failed node
allocation, a generator call, two resets and five distinct buffers. -/
theorem ownership_invariant_witness :
    (buffers_of [Op.gc_add (some 1) true, Op.generate (Generator.cursor_cuu 3) (some 2) true,
        Op.gc_reset, Op.gc_add (some 3) false, Op.gc_add (some 4) true, Op.gc_reset,
        Op.gc_add (some 5) true]).Nodup ∧
    ((run_ops [Op.gc_add (some 1) true, Op.generate (Generator.cursor_cuu 3) (some 2) true,
        Op.gc_reset, Op.gc_add (some 3) false, Op.gc_add (some 4) true, Op.gc_reset,
        Op.gc_add (some 5) true] State.startup).g_list_active
      ++ (run_ops [Op.gc_add (some 1) true,
        Op.generate (Generator.cursor_cuu 3) (some 2) true,
        Op.gc_reset, Op.gc_add (some 3) false, Op.gc_add (some 4) true, Op.gc_reset,
        Op.gc_add (some 5) true] State.startup).g_list_trash).Nodup ∧
    (freed (new_events State.startup
      (run_ops [Op.gc_add (some 1) true, Op.generate (Generator.cursor_cuu 3) (some 2) true,
        Op.gc_reset, Op.gc_add (some 3) false, Op.gc_add (some 4) true, Op.gc_reset,
        Op.gc_add (some 5) true] State.startup))).Nodup :=
  ⟨by decide,
   (ownership_invariant State.startup
      [Op.gc_add (some 1) true, Op.generate (Generator.cursor_cuu 3) (some 2) true,
        Op.gc_reset, Op.gc_add (some 3) false, Op.gc_add (some 4) true, Op.gc_reset,
        Op.gc_add (some 5) true] rfl rfl (by decide)).1,
   (ownership_invariant State.startup
      [Op.gc_add (some 1) true, Op.generate (Generator.cursor_cuu 3) (some 2) true,
        Op.gc_reset, Op.gc_add (some 3) false, Op.gc_add (some 4) true, Op.gc_reset,
        Op.gc_add (some 5) true] rfl rfl (by decide)).2.2.2.1⟩

/-! ## Decimal numerals -/

theorem digitChar_props (k : Nat) (hk : k < 10) :
    digit_value (Nat.digitChar k) = k ∧ Nat.digitChar k ≠ ';' := by
  interval_cases k <;> decide

theorem toDigitsCore_append (fuel n : Nat) (ds : List Char) :
    Nat.toDigitsCore 10 fuel n ds = Nat.toDigitsCore 10 fuel n [] ++ ds := by
  induction fuel generalizing n ds with
  | zero => simp [Nat.toDigitsCore]
  | succ fuel ih =>
    simp only [Nat.toDigitsCore]
    split
    · simp
    · rw [ih (n / 10) (Nat.digitChar (n % 10) :: ds), ih (n / 10) [Nat.digitChar (n % 10)]]
      simp

theorem undec_append_singleton (cs : List Char) (c : Char) :
    undec (cs ++ [c]) = 10 * undec cs + digit_value c := by
  simp [undec, List.foldl_append]

/-- With enough fuel, the digits produced for `n` contain no `;` and denote `n`. -/
theorem toDigitsCore_props (fuel n : Nat) (h : n < fuel) :
    undec (Nat.toDigitsCore 10 fuel n []) = n ∧
    ∀ c ∈ Nat.toDigitsCore 10 fuel n [], c ≠ ';' := by
  induction fuel generalizing n with
  | zero => omega
  | succ fuel ih =>
    have hd := digitChar_props (n % 10) (Nat.mod_lt _ (by decide))
    simp only [Nat.toDigitsCore]
    split
    · rename_i h0
      refine ⟨?_, ?_⟩
      · have hu : undec [Nat.digitChar (n % 10)] = n % 10 := by simp [undec, hd.1]
        rw [hu]
        omega
      · intro c hc
        rw [List.mem_singleton] at hc
        rw [hc]
        exact hd.2
    · rename_i h0
      have hlt : n / 10 < fuel := by omega
      obtain ⟨ih1, ih2⟩ := ih (n / 10) hlt
      rw [toDigitsCore_append]
      refine ⟨?_, ?_⟩
      · rw [undec_append_singleton, ih1, hd.1]
        omega
      · intro c hc
        rcases List.mem_append.1 hc with hc | hc
        · exact ih2 c hc
        · rw [List.mem_singleton] at hc
          rw [hc]
          exact hd.2

/-- Reading back the numeral of `n` gives `n`. -/
theorem undec_dec (n : Nat) : undec (dec n) = n :=
  (toDigitsCore_props (n + 1) n (Nat.lt_succ_self n)).1

theorem dec_no_semicolon (n : Nat) : ∀ c ∈ dec n, c ≠ ';' :=
  (toDigitsCore_props (n + 1) n (Nat.lt_succ_self n)).2

theorem dec_injective {a b : Nat} (h : dec a = dec b) : a = b := by
  have := congrArg undec h
  rwa [undec_dec, undec_dec] at this

/-- Two strings that agree, each being a part without separator, then the
separator, then a rest, have the same first part and the same rest. -/
theorem split_at_separator (sep : Char) (xs ys a b : List Char)
    (hx : ∀ c ∈ xs, c ≠ sep) (hy : ∀ c ∈ ys, c ≠ sep)
    (h : xs ++ sep :: a = ys ++ sep :: b) : xs = ys ∧ a = b := by
  induction xs generalizing ys with
  | nil =>
    cases ys with
    | nil => simpa using h
    | cons y ys =>
      simp only [List.nil_append, List.cons_append, List.cons.injEq] at h
      exact absurd h.1.symm (hy y (List.mem_cons_self _ _))
  | cons x xs ih =>
    cases ys with
    | nil =>
      simp only [List.nil_append, List.cons_append, List.cons.injEq] at h
      exact absurd h.1 (hx x (List.mem_cons_self _ _))
    | cons y ys =>
      simp only [List.cons_append, List.cons.injEq] at h
      obtain ⟨h1, h2⟩ := ih ys (fun c hc => hx c (List.mem_cons_of_mem _ hc))
        (fun c hc => hy c (List.mem_cons_of_mem _ hc)) h.2
      exact ⟨by rw [h.1, h1], h2⟩

/-! ## C24: cursor positioning is injective -/

/-- The string a successful `cursor_cup` call leaves in its buffer. -/
theorem cursor_cup_text (row column : Nat) (p : Ptr) (s : State)
    (h : (1 ≤ row ∧ row ≤ 999) ∧ (1 ≤ column ∧ column ≤ 999)) :
    load p (cursor_cup row column (some p) true s).2
      = some (s.g_ansi_esc_char ++ '[' :: (dec row ++ ';' :: (dec column ++ ['H']))) := by
  have h1 := generator_call_ok (Generator.cursor_cup row column) p true s h
  simp only [Generator.call, Generator.body] at h1
  rw [h1]
  simp [gc_add, load, store]

/-- C24. For rows and columns in `[1,999]` and a fixed escape string, two
successful `cursor_cup` calls leave equal strings in their buffers only if
they were given the same row and the same column. -/
theorem cursor_cup_injective (row1 col1 row2 col2 : Nat) (p1 p2 : Ptr) (s1 s2 : State)
    (h1 : (1 ≤ row1 ∧ row1 ≤ 999) ∧ (1 ≤ col1 ∧ col1 ≤ 999))
    (h2 : (1 ≤ row2 ∧ row2 ≤ 999) ∧ (1 ≤ col2 ∧ col2 ≤ 999))
    (hesc : s1.g_ansi_esc_char = s2.g_ansi_esc_char)
    (heq : load p1 (cursor_cup row1 col1 (some p1) true s1).2
      = load p2 (cursor_cup row2 col2 (some p2) true s2).2) :
    row1 = row2 ∧ col1 = col2 := by
  rw [cursor_cup_text row1 col1 p1 s1 h1, cursor_cup_text row2 col2 p2 s2 h2, hesc] at heq
  have hbody := List.cons.inj (List.append_cancel_left (Option.some.inj heq))
  obtain ⟨hrow, hrest⟩ := split_at_separator ';' (dec row1) (dec row2) _ _
    (dec_no_semicolon row1) (dec_no_semicolon row2) hbody.2
  exact ⟨dec_injective hrow, dec_injective (List.append_cancel_right hrest)⟩

/-- Witness for C24: two calls with row 12, column 34 in different buffers give
equal strings; row 1, column 23 and row 12, column 3 give different strings
(`ESC[1;23H` and `ESC[12;3H`). -/
theorem cursor_cup_injective_witness :
    (load 7 (cursor_cup 12 34 (some 7) true State.startup).2
        = load 8 (cursor_cup 12 34 (some 8) true State.startup).2 ∧
      (12 = 12 ∧ 34 = 34)) ∧
    load 7 (cursor_cup 1 23 (some 7) true State.startup).2
      ≠ load 8 (cursor_cup 12 3 (some 8) true State.startup).2 :=
  ⟨⟨by decide,
    cursor_cup_injective 12 34 12 34 7 8 State.startup State.startup
      (by decide) (by decide) rfl (by decide)⟩,
   fun h => absurd (cursor_cup_injective 1 23 12 3 7 8 State.startup State.startup
     (by decide) (by decide) rfl h).1 (by decide)⟩

/-! ## C21: truncation of the static table entries -/

theorem fill_table_succ (n : Nat) (raw : List (Option (List Char))) (esc : List Char)
    (table : List Slot) :
    fill_table (n + 1) raw esc table
      = (fill_table n raw esc table).set n (fill_slot esc (raw.get? n).join) := by
  simp [fill_table, List.range_succ, List.foldl_append]

theorem fill_table_length (nb : Nat) (raw : List (Option (List Char))) (esc : List Char)
    (table : List Slot) : (fill_table nb raw esc table).length = table.length := by
  induction nb with
  | zero => simp [fill_table]
  | succ n ih => rw [fill_table_succ, List.length_set, ih]

/-- After the loop, every slot below the bound holds what `snprintf` left
there for its raw code. -/
theorem fill_table_get (nb : Nat) (raw : List (Option (List Char))) (esc : List Char)
    (table : List Slot) (i : Nat) (hi : i < nb) (hlen : i < table.length) :
    (fill_table nb raw esc table).get? i = some (fill_slot esc (raw.get? i).join) := by
  induction nb with
  | zero => omega
  | succ n ih =>
    rw [fill_table_succ, List.get?_eq_getElem?]
    by_cases h : n = i
    · subst h
      rw [List.getElem?_set_self (by rw [fill_table_length]; exact hlen)]
    · rw [List.getElem?_set_ne h, ← List.get?_eq_getElem?]
      exact ih (by omega)

/-- The slot written for a defined raw code: the first `COLOR_STR_SIZE - 1`
characters of the escape string followed by the code. -/
theorem fill_slot_some (esc code : List Char) :
    fill_slot esc (some code) = some ((esc ++ code).take 7) := by
  simp [fill_slot, snprintf, vformat, COLOR_STR_SIZE]

/-- What the initialiser of a table leaves in the table. -/
theorem table_init_read (T : Table) (s : State) :
    T.read (T.init s) = fill_table T.nb T.raw s.g_ansi_esc_char (T.read s) := by
  cases T <;>
    simp only [Table.read, Table.init, Table.nb, Table.raw, init_fore, init_back, init_style,
      init_disable, init_default, init_font, init_misc, init_cursor, init_screen,
      get_ansi_esc_char]

/-- No raw code of any table has more than 6 characters. -/
theorem raw_codes_short (T : Table) :
    T.raw.all (fun o => decide ((o.getD []).length ≤ 6)) = true := by
  cases T <;> decide

/-- C21. Take any table, any index `i` below the bound of its initialiser at
which the raw code is defined, and any state in which the table has its
declared size.  The raw code has at most 6 characters.  With the default
one-character escape string, the initialiser leaves in slot `i` exactly ESC
followed by the whole raw code, which with its terminator fits the 8 bytes
of the slot.  With an escape string `e` such that the length of `e` plus the
length of the raw code exceeds 7, the slot holds only the first 7 characters
of `e` followed by the raw code, which is a proper part of it. -/
theorem table_entry_truncation (T : Table) (s : State) (i : Nat) (code : List Char)
    (hi : i < T.nb) (hsize : (T.read s).length = T.nb)
    (hraw : T.raw.get? i = some (some code)) :
    code.length ≤ 6 ∧
    (s.g_ansi_esc_char = "\x1b".toList →
      (T.read (T.init s)).get? i = some (some ("\x1b".toList ++ code)) ∧
      ("\x1b".toList ++ code).length + 1 ≤ COLOR_STR_SIZE) ∧
    (s.g_ansi_esc_char.length + code.length > 7 →
      (T.read (T.init s)).get? i = some (some ((s.g_ansi_esc_char ++ code).take 7)) ∧
      ((s.g_ansi_esc_char ++ code).take 7).length = 7 ∧
      (s.g_ansi_esc_char ++ code).take 7 ≠ s.g_ansi_esc_char ++ code) := by
  have hslot : (T.read (T.init s)).get? i
      = some (some ((s.g_ansi_esc_char ++ code).take 7)) := by
    rw [table_init_read, fill_table_get _ _ _ _ i hi (by rw [hsize]; exact hi), hraw]
    simp [fill_slot_some]
  have hshort : code.length ≤ 6 := by
    have hall := raw_codes_short T
    rw [List.all_eq_true] at hall
    have hmem : some code ∈ T.raw := List.get?_mem hraw
    simpa using hall _ hmem
  refine ⟨hshort, ?_, ?_⟩
  · intro hesc
    rw [hslot, hesc]
    have hlen : ("\x1b".toList ++ code).length ≤ 7 := by
      simp only [List.length_append]
      have : "\x1b".toList.length = 1 := rfl
      omega
    refine ⟨by rw [List.take_of_length_le hlen], ?_⟩
    simp only [COLOR_STR_SIZE]
    omega
  · intro hlong
    have hlen : 7 < (s.g_ansi_esc_char ++ code).length := by
      simp only [List.length_append]
      omega
    refine ⟨hslot, ?_, ?_⟩
    · rw [List.length_take]
      omega
    · intro h
      have := congrArg List.length h
      rw [List.length_take] at this
      omega

/-- Witness for C21: `Back` entry 8 (`[100m`) with the default escape string is
stored whole; with the three-character escape string `ESC` (the letters E, S,
C) it is cut to its first 7 characters, `ESC[100`. -/
theorem table_entry_truncation_witness :
    (Table.Back.read (Table.Back.init State.startup)).get? 8
        = some (some "\x1b[100m".toList) ∧
    (Table.Back.read (Table.Back.init
        { State.startup with g_ansi_esc_char := "ESC".toList })).get? 8
        = some (some "ESC[100".toList) :=
  ⟨((table_entry_truncation Table.Back State.startup 8 "[100m".toList
      (by decide) (by decide) (by decide)).2.1 rfl).1,
   ((table_entry_truncation Table.Back
      { State.startup with g_ansi_esc_char := "ESC".toList } 8 "[100m".toList
      (by decide) (by decide) (by decide)).2.2 (by decide)).1⟩

/-! ## C22: the reset string does not follow the configuration -/

/-- C22. Let the escape string be set through `init_color` (to `e`, or to ESC
for a NULL argument) and let `t` be any later state with that escape string,
whatever its tracker lists.  `gc_reset` returns exactly the 4 characters
ESC `[0m`, and so does a call through `Style.RESET_ALL` once `init_style` has
set it; whereas every successful generator call produces the configured
escape string followed by its body, and `auto_clean` writes the configured
escape string followed by `[0m`. -/
theorem reset_string_ignores_configuration (o_esc : Option (List Char)) (cs ac sig : Nat)
    (flags : Int) (s t : State)
    (ht : get_ansi_esc_char t = get_ansi_esc_char (init_color o_esc cs ac sig flags s)) :
    (gc_reset t).1 = "\x1b[0m".toList ∧
    (gc_reset t).1.length = 4 ∧
    (∀ f, (init_style t).Style_RESET_ALL = some f → (f.call t).1 = "\x1b[0m".toList) ∧
    (∀ (g : Generator) (p : Ptr), g.inRange →
      load p (g.call (some p) true t).2 = some (o_esc.getD "\x1b".toList ++ g.body)) ∧
    stdout_text (new_events t (auto_clean t))
      = o_esc.getD "\x1b".toList ++ "[0m".toList
          ++ (if t.g_cursor_auto_show ≠ 0 then o_esc.getD "\x1b".toList ++ "[?25h".toList
              else []) := by
  have hcfg := (init_color_config o_esc cs ac sig flags s).1
  rw [get_ansi_esc_char, get_ansi_esc_char, hcfg] at ht
  refine ⟨by rw [gc_reset_eq], by rw [gc_reset_eq]; rfl, ?_, ?_, ?_⟩
  · intro f _
    cases f
    simp only [StyleFn.call]
    rw [gc_reset_eq]
  · intro g p hg
    rw [generator_call_ok g p true t hg, ht]
    simp [gc_add, load, store]
  · obtain ⟨htr, _, _⟩ := auto_clean_trace t
    rw [new_events_eq htr, ht]
    simp only [stdout_text_append, stdout_text_map_free]
    split <;> simp [stdout_text]

/-- Witness for C22: with the escape string `\e` (backslash and `e`), `gc_reset`
still returns ESC `[0m`, while `cursor_cuu(3)` gives `\e[3A`. -/
theorem reset_string_ignores_configuration_witness :
    (gc_reset (init_color (some "\\e".toList) 1 1 1 COLOR_FLAG_NONE State.startup)).1
      = "\x1b[0m".toList ∧
    load 7 ((Generator.cursor_cuu 3).call (some 7) true
        (init_color (some "\\e".toList) 1 1 1 COLOR_FLAG_NONE State.startup)).2
      = some ("\\e".toList ++ "[3A".toList) :=
  ⟨(reset_string_ignores_configuration (some "\\e".toList) 1 1 1 COLOR_FLAG_NONE
      State.startup
      (init_color (some "\\e".toList) 1 1 1 COLOR_FLAG_NONE State.startup) rfl).1,
   (reset_string_ignores_configuration (some "\\e".toList) 1 1 1 COLOR_FLAG_NONE
      State.startup
      (init_color (some "\\e".toList) 1 1 1 COLOR_FLAG_NONE State.startup) rfl).2.2.2.1
      (Generator.cursor_cuu 3) 7 (by decide)⟩

/-! ## C23: disabling auto-clean later does not undo the registrations -/

theorem exit_fn_ignores_flag (f : ExitFn) (v : Nat) (t : State) :
    f.call { t with g_auto_clean := v } = { f.call t with g_auto_clean := v } := by
  cases f
  · simp [ExitFn.call, gc_clean_all_eq]
  · simp only [ExitFn.call, auto_clean, gc_clean_all_eq, printf, get_cursor_auto_show,
      get_ansi_esc_char]
    split <;> rfl

theorem exit_fns_ignore_flag (fns : List ExitFn) (v : Nat) (t : State) :
    fns.foldl (fun st f => f.call st) { t with g_auto_clean := v }
      = { fns.foldl (fun st f => f.call st) t with g_auto_clean := v } := by
  induction fns generalizing t with
  | nil => rfl
  | cons f fns ih => rw [List.foldl_cons, List.foldl_cons, exit_fn_ignores_flag, ih]

/-- C23. `init_color` never removes an exit action: the actions registered
before the call are still registered after it, below any it adds, and with
auto-clean disabled the list is exactly as it was.  The stored auto-clean flag
is never consulted at exit: changing it changes nothing else in the outcome
of normal exit.  So when the automatic start-up initialisation is followed
by `init_color` with auto-clean disabled, normal exit from any later state
`t` with those registrations still writes the reset sequence and frees every
tracked allocation. -/
theorem disabling_auto_clean_keeps_teardown (e : Option (List Char)) (cs ac sig : Nat)
    (flags : Int) (s t : State) :
    (init_color e cs 0 sig flags s).atexit_fns = s.atexit_fns ∧
    (∃ added, (init_color e cs ac sig flags s).atexit_fns = added ++ s.atexit_fns) ∧
    (∀ v, run_atexit { t with g_auto_clean := v }
      = { run_atexit t with g_auto_clean := v }) ∧
    (s.atexit_fns = [] →
      t.atexit_fns = (init_color e cs 0 sig flags (auto_init s)).atexit_fns →
      (init_color e cs 0 sig flags (auto_init s)).g_auto_clean = 0 ∧
      new_events t (run_atexit t) =
        [Event.stdout t.g_ansi_esc_char, Event.stdout "[0m".toList]
          ++ (t.g_list_active ++ t.g_list_trash).map Event.free
          ++ (if t.g_cursor_auto_show ≠ 0 then
                [Event.stdout t.g_ansi_esc_char, Event.stdout "[?25h".toList]
              else []) ∧
      (run_atexit t).g_list_active = [] ∧ (run_atexit t).g_list_trash = []) := by
  refine ⟨?_, ?_, ?_, ?_⟩
  · rw [init_color_atexit_fns]
    simp
  · rw [init_color_atexit_fns]
    split
    · exact ⟨[ExitFn.auto_clean, ExitFn.gc_clean_all], rfl⟩
    · exact ⟨[], rfl⟩
  · intro v
    simp only [run_atexit]
    rw [exit_fns_ignore_flag]
  · intro hnone ht
    have hfns : t.atexit_fns = [ExitFn.auto_clean, ExitFn.gc_clean_all] := by
      rw [ht, init_color_atexit_fns, auto_init, init_color_atexit_fns, hnone]
      simp
    obtain ⟨htr, hA, hT⟩ := auto_clean_trace t
    have hrun : run_atexit t = { gc_clean_all (auto_clean t) with atexit_fns := [] } := by
      simp [run_atexit, hfns, ExitFn.call]
    refine ⟨(init_color_config e cs 0 sig flags (auto_init s)).2.2.1, new_events_eq ?_, ?_, ?_⟩
    · rw [hrun]
      simp [gc_clean_all_eq, hA, hT, htr]
    · rw [hrun]
      simp [gc_clean_all_eq]
    · rw [hrun]
      simp [gc_clean_all_eq]

/-- Witness for C23: start-up initialisation, one generator call whose buffer
is 7, `init_color` with auto-clean disabled, then normal exit. -/
theorem disabling_auto_clean_keeps_teardown_witness :
    State.startup.atexit_fns = [] ∧
    get_auto_clean (init_color none 1 0 0 COLOR_FLAG_NONE
        (cursor_cuu 3 (some 7) true (auto_init State.startup)).2) = 0 ∧
    new_events
        (init_color none 1 0 0 COLOR_FLAG_NONE
          (cursor_cuu 3 (some 7) true (auto_init State.startup)).2)
        (run_atexit (init_color none 1 0 0 COLOR_FLAG_NONE
          (cursor_cuu 3 (some 7) true (auto_init State.startup)).2))
      = [Event.stdout "\x1b".toList, Event.stdout "[0m".toList, Event.free 7,
         Event.stdout "\x1b".toList, Event.stdout "[?25h".toList] :=
  ⟨rfl, by decide,
   ((disabling_auto_clean_keeps_teardown none 1 0 0 COLOR_FLAG_NONE State.startup
      (init_color none 1 0 0 COLOR_FLAG_NONE
        (cursor_cuu 3 (some 7) true (auto_init State.startup)).2)).2.2.2
      rfl (by decide)).2.1⟩

/-! ## C8: what normal exit does, in order -/

end ColorLib
